import Mathlib

/-!
Verification of the core simulation loop of the Javascript-tower-game
repository: enemy damage and path movement (src/src/features/enemies/Enemy.js),
tower targeting and cooldown-gated firing (the Tower entity revision and the
classes/tower/Tower.js revision), projectile-to-enemy collision resolution
(Projectile.hit and the orchestrator's checkProjectileEnemyCollisions), and the
wave spawn-budget state machine (src/classes/gameManagers/WaveManager.js).

JS numbers are modelled as real numbers (the code relies on Math.sqrt, so the
movement and targeting geometry is over ℝ); the WaveManager arithmetic only
uses +, *, /, comparisons and floor, so it is modelled over ℚ to keep it
decidable.  Math.random() calls are modelled by explicit parameters carrying
the value the call returned.  Rendering-only data (sprites, colors, trails)
and the statistics counters not read by any modelled method are omitted.
-/

noncomputable section

/-! ## Enemy (src/src/features/enemies/Enemy.js)

Status effect records mirror the `statusEffects` object literal of the
constructor. -/

structure StatusSlow where
  active : Bool
  duration : ℝ
  slowFactor : ℝ

structure StatusStun where
  active : Bool
  duration : ℝ

structure StatusBurn where
  active : Bool
  duration : ℝ
  damagePerSecond : ℝ

structure StatusFreeze where
  active : Bool
  duration : ℝ

structure StatusEffects where
  slow : StatusSlow
  stun : StatusStun
  burn : StatusBurn
  freeze : StatusFreeze

/-- The Enemy entity.  `path` is the waypoint list of `{x, y}` points,
`resistances` the per-damage-type resistance object (an association list;
an absent key plays the role of JS `undefined`, which is falsy exactly like
the value 0).  The render-only fields `image` and `specialAbilities` are
omitted. -/
structure Enemy where
  id : String
  type : String
  path : List (ℝ × ℝ)
  pathIndex : ℕ
  distanceAlongSegment : ℝ
  x : ℝ
  y : ℝ
  width : ℝ
  height : ℝ
  speed : ℝ
  direction : ℝ × ℝ
  rotation : ℝ
  health : ℝ
  maxHealth : ℝ
  isDead : Bool
  bounty : ℝ
  armor : ℝ
  resistances : List (String × ℝ)
  statusEffects : StatusEffects
  opacity : ℝ

/-- `this.resistances[damageType]`: association-list lookup, with 0 standing
for an absent key (both are falsy in the JS truthiness test that guards the
resistance multiplication). -/
def resistanceOf (e : Enemy) (damageType : String) : ℝ :=
  (e.resistances.lookup damageType).getD 0

/-- `Enemy.takeDamage(damage, damageType)`.  Returns the updated enemy
together with the JS return value (the actual damage taken). -/
def takeDamage (e : Enemy) (damage : ℝ) (damageType : String) : Enemy × ℝ :=
  if e.isDead then (e, 0)
  else
    -- apply armor reduction
    let base := max 1 (damage - e.armor)
    -- apply type based resistances (JS: if (this.resistances[damageType]))
    let actualDamage :=
      if resistanceOf e damageType ≠ 0 then base * (1 - resistanceOf e damageType) else base
    let newHealth := e.health - actualDamage
    if newHealth ≤ 0 then ({e with health := 0, isDead := true}, actualDamage)
    else ({e with health := newHealth}, actualDamage)

/-- `Enemy.heal(amount)`. -/
def heal (e : Enemy) (amount : ℝ) : Enemy :=
  if e.isDead then e
  else {e with health := min (e.health + amount) e.maxHealth}

/-- The "update slow effect" block of `Enemy.updateStatusEffects`. -/
def updateSlowEffect (e : Enemy) (deltaTime : ℝ) : Enemy :=
  if e.statusEffects.slow.active then
    let d := e.statusEffects.slow.duration - deltaTime
    if d ≤ 0 then
      {e with statusEffects :=
        {e.statusEffects with slow := {active := false, duration := d, slowFactor := 1}}}
    else
      {e with statusEffects :=
        {e.statusEffects with slow := {e.statusEffects.slow with duration := d}}}
  else e

/-- The "update stun effect" block of `Enemy.updateStatusEffects`. -/
def updateStunEffect (e : Enemy) (deltaTime : ℝ) : Enemy :=
  if e.statusEffects.stun.active then
    let d := e.statusEffects.stun.duration - deltaTime
    if d ≤ 0 then
      {e with statusEffects := {e.statusEffects with stun := {active := false, duration := d}}}
    else
      {e with statusEffects := {e.statusEffects with stun := {active := true, duration := d}}}
  else e

/-- The "update burn effect" block of `Enemy.updateStatusEffects`: while the
burn stays active, apply `damagePerSecond * deltaTime` damage through
`takeDamage` (whose `damageType` argument defaults to "normal"). -/
def updateBurnEffect (e : Enemy) (deltaTime : ℝ) : Enemy :=
  if e.statusEffects.burn.active then
    let d := e.statusEffects.burn.duration - deltaTime
    if d ≤ 0 then
      {e with statusEffects :=
        {e.statusEffects with burn := {e.statusEffects.burn with active := false, duration := d}}}
    else
      let e' :=
        {e with statusEffects :=
          {e.statusEffects with burn := {e.statusEffects.burn with duration := d}}}
      (takeDamage e' (e'.statusEffects.burn.damagePerSecond * deltaTime) "normal").1
  else e

/-- The "update freeze effect" block of `Enemy.updateStatusEffects`. -/
def updateFreezeEffect (e : Enemy) (deltaTime : ℝ) : Enemy :=
  if e.statusEffects.freeze.active then
    let d := e.statusEffects.freeze.duration - deltaTime
    if d ≤ 0 then
      {e with statusEffects := {e.statusEffects with freeze := {active := false, duration := d}}}
    else
      {e with statusEffects := {e.statusEffects with freeze := {active := true, duration := d}}}
  else e

/-- `Enemy.updateStatusEffects(deltaTime)`: the four blocks in source order
(slow, stun, burn, freeze). -/
def updateStatusEffects (e : Enemy) (deltaTime : ℝ) : Enemy :=
  updateFreezeEffect
    (updateBurnEffect (updateStunEffect (updateSlowEffect e deltaTime) deltaTime) deltaTime)
    deltaTime

/-- The value `Enemy.updateDirection()` stores into `this.direction`: the
unit direction towards the next waypoint (zero when at or past the last
waypoint, or on a zero-length segment). -/
def directionToNext (e : Enemy) : ℝ × ℝ :=
  if e.path.length - 1 ≤ e.pathIndex then (0, 0)
  else
    let current := e.path.getD e.pathIndex (0, 0)
    let next := e.path.getD (e.pathIndex + 1) (0, 0)
    let dx := next.1 - current.1
    let dy := next.2 - current.2
    let length := Real.sqrt (dx * dx + dy * dy)
    if length = 0 then (0, 0)
    else (dx / length, dy / length)

/-- `Enemy.updateDirection()`. -/
def updateDirection (e : Enemy) : Enemy :=
  {e with direction := directionToNext e}

/-- Euclidean length of the path segment starting at waypoint `i`
(the `Math.sqrt(dx*dx + dy*dy)` of the source). -/
def segmentLengthAt (path : List (ℝ × ℝ)) (i : ℕ) : ℝ :=
  let current := path.getD i (0, 0)
  let next := path.getD (i + 1) (0, 0)
  Real.sqrt ((next.1 - current.1) * (next.1 - current.1) +
    (next.2 - current.2) * (next.2 - current.2))

/-- The `while` loop of `Enemy.moveAlongPath`: consume `remainingDistance`
world units, crossing zero or more waypoints. -/
def moveLoop (e : Enemy) (remainingDistance : ℝ) : Enemy :=
  if 0 < remainingDistance ∧ e.pathIndex < e.path.length - 1 then
    let segmentLength := segmentLengthAt e.path e.pathIndex
    -- distance remaining to next waypoint
    let distanceToNext := segmentLength - e.distanceAlongSegment
    if distanceToNext ≤ remainingDistance then
      -- move to next waypoint
      moveLoop (updateDirection {e with pathIndex := e.pathIndex + 1, distanceAlongSegment := 0})
        (remainingDistance - distanceToNext)
    else
      -- move along current segment (the loop then exits with remaining = 0)
      {e with distanceAlongSegment := e.distanceAlongSegment + remainingDistance}
  else e
termination_by e.path.length - 1 - e.pathIndex
decreasing_by
  simp only [updateDirection]
  omega

/-- `Enemy.updatePosition()`: interpolated world coordinates for the current
(pathIndex, distanceAlongSegment). -/
def updatePosition (e : Enemy) : Enemy :=
  if e.path.length ≤ e.pathIndex then
    let last := e.path.getD (e.path.length - 1) (0, 0)
    {e with x := last.1, y := last.2}
  else
    let currentWaypoint := e.path.getD e.pathIndex (0, 0)
    let nextWaypoint := e.path.getD (min (e.pathIndex + 1) (e.path.length - 1)) (0, 0)
    let dx := nextWaypoint.1 - currentWaypoint.1
    let dy := nextWaypoint.2 - currentWaypoint.2
    let segmentLength := Real.sqrt (dx * dx + dy * dy)
    if segmentLength = 0 then {e with x := currentWaypoint.1, y := currentWaypoint.2}
    else
      let progress := e.distanceAlongSegment / segmentLength
      {e with x := currentWaypoint.1 + dx * progress, y := currentWaypoint.2 + dy * progress}

/-- `Enemy.moveAlongPath(speed, deltaTime)`. -/
def moveAlongPath (e : Enemy) (speed deltaTime : ℝ) : Enemy :=
  if e.path.length - 1 ≤ e.pathIndex then
    -- reached the end of path
    e
  else
    let distance := speed * deltaTime
    updatePosition (moveLoop e distance)

/-- `Math.atan2(y, x)`. -/
def atan2 (y x : ℝ) : ℝ :=
  if 0 < x then Real.arctan (y / x)
  else if x < 0 then
    (if 0 ≤ y then Real.arctan (y / x) + Real.pi else Real.arctan (y / x) - Real.pi)
  else if 0 < y then Real.pi / 2
  else if y < 0 then -(Real.pi / 2)
  else 0

/-- `Enemy.update(deltaTime)`: status effects, stun gate, path movement and
facing rotation.  (The effective speed is read from the slow factor *before*
`updateStatusEffects` runs, exactly as in the source.) -/
def Enemy.update (e : Enemy) (deltaTime : ℝ) : Enemy :=
  if e.isDead then e
  else
    let effectiveSpeed := e.speed * e.statusEffects.slow.slowFactor
    let e1 := updateStatusEffects e deltaTime
    if e1.statusEffects.stun.active then e1
    else
      let e2 := moveAlongPath e1 effectiveSpeed deltaTime
      if e2.direction.1 ≠ 0 ∨ e2.direction.2 ≠ 0 then
        {e2 with rotation := atan2 e2.direction.2 e2.direction.1}
      else e2

/-- `Enemy.hasReachedEnd()`. -/
def hasReachedEnd (e : Enemy) : Prop :=
  e.path.length - 1 ≤ e.pathIndex ∧ 0 ≤ e.distanceAlongSegment

/-- `Enemy.getPathProgress()`. -/
def getPathProgress (e : Enemy) : ℝ :=
  (e.pathIndex : ℝ) / ((e.path.length : ℝ) - 1)

/-- `Enemy.getDistanceTraveled()`: segment lengths up to the current waypoint
plus the distance along the current segment. -/
def getDistanceTraveled (e : Enemy) : ℝ :=
  ((List.range e.pathIndex).map (fun i => segmentLengthAt e.path i)).sum +
    e.distanceAlongSegment

/-! ## Tower entity (the `Tower` class of the manager/renderer revision,
`TOWER_CONFIG`-driven, with `update(deltaTime, enemies)`) -/

/-- The per-type configuration bundle looked up from `TOWER_CONFIG`. -/
structure TowerConfig where
  width : ℝ
  height : ℝ
  range : ℝ
  fireRate : ℝ
  damage : ℝ
  damageType : String
  projectileType : String
  piercing : Bool
  areaOfEffect : ℝ
  health : ℝ
  maxLevel : ℕ
  targetingStrategy : String

/-- The Tower entity.  `targetEnemy` models the JS object reference to the
current target.  `rotation` and the statistics counters are kept; purely
render-side state is omitted. -/
structure Tower where
  id : ℕ
  type : String
  x : ℝ
  y : ℝ
  gridX : ℤ
  gridY : ℤ
  config : TowerConfig
  width : ℝ
  height : ℝ
  range : ℝ
  targetEnemy : Option Enemy
  targetingStrategy : String
  rotation : ℝ
  shotCooldown : ℝ
  lastShotTime : ℝ
  shotsToFire : ℕ
  level : ℕ
  experiencePoints : ℝ
  experienceToNextLevel : ℝ
  health : ℝ
  maxHealth : ℝ
  isSelected : Bool
  isDead : Bool
  totalDamageDealt : ℝ
  enemiesKilled : ℕ
  totalMoneyGenerated : ℝ
  hasShot : Bool
  isActive : Bool

/-- `Tower.getDistanceToEnemy(enemy)`. -/
def getDistanceToEnemy (t : Tower) (e : Enemy) : ℝ :=
  Real.sqrt ((e.x - t.x) * (e.x - t.x) + (e.y - t.y) * (e.y - t.y))

/-- `Tower.getClosestEnemy(enemies)` (the source starts from `enemies[0]`
and scans the rest keeping a strictly closer candidate). -/
def getClosestEnemy (t : Tower) : List Enemy → Option Enemy
  | [] => none
  | first :: rest =>
    some (rest.foldl
      (fun closest cand =>
        if getDistanceToEnemy t cand < getDistanceToEnemy t closest then cand else closest)
      first)

/-- `Tower.getFurthestEnemy(enemies)`. -/
def getFurthestEnemy (t : Tower) : List Enemy → Option Enemy
  | [] => none
  | first :: rest =>
    some (rest.foldl
      (fun furthest cand =>
        if getDistanceToEnemy t furthest < getDistanceToEnemy t cand then cand else furthest)
      first)

/-- `Tower.getWeakestEnemy(enemies)` (lowest health wins, first wins ties). -/
def getWeakestEnemy : List Enemy → Option Enemy
  | [] => none
  | first :: rest =>
    some (rest.foldl (fun weakest cand => if cand.health < weakest.health then cand else weakest)
      first)

/-- `Tower.getStrongestEnemy(enemies)`. -/
def getStrongestEnemy : List Enemy → Option Enemy
  | [] => none
  | first :: rest =>
    some (rest.foldl (fun strongest cand =>
      if strongest.health < cand.health then cand else strongest) first)

/-- `Tower.getFurthestAlongPath(enemies)` (maximum `getPathProgress()`). -/
def getFurthestAlongPath : List Enemy → Option Enemy
  | [] => none
  | first :: rest =>
    some (rest.foldl (fun furthest cand =>
      if getPathProgress furthest < getPathProgress cand then cand else furthest) first)

/-- `Tower.findTarget(enemies)`: filter live in-range candidates, then apply
the tower's targeting strategy. -/
def Tower.findTarget (t : Tower) (enemies : List Enemy) : Option Enemy :=
  if enemies.length = 0 then none
  else
    let validTargets := enemies.filter
      (fun e => decide (e.isDead = false ∧ getDistanceToEnemy t e ≤ t.range))
    if validTargets.length = 0 then none
    else
      match t.targetingStrategy with
      | "closest" => getClosestEnemy t validTargets
      | "furthest" => getFurthestEnemy t validTargets
      | "weakest" => getWeakestEnemy validTargets
      | "strongest" => getStrongestEnemy validTargets
      | "pathProgress" => getFurthestAlongPath validTargets
      | _ => validTargets[0]?

/-- `Tower.calculateDamage()`: level multiplier, then symmetric ±10% random
variance (`rand` is the value `Math.random()` returned), then `Math.round`. -/
def calculateDamage (t : Tower) (rand : ℝ) : ℝ :=
  let baseDamage := t.config.damage
  let baseDamage := baseDamage * (1 + ((t.level : ℝ) - 1) * 0.15)
  let variance := 0.9 + rand * 0.2
  let baseDamage := baseDamage * variance
  (round baseDamage : ℤ)

/-- The projectile-spawn descriptor returned by a firing tower. -/
structure ProjectileData where
  type : String
  startX : ℝ
  startY : ℝ
  targetX : ℝ
  targetY : ℝ
  targetEnemy : Option Enemy
  damage : ℝ
  damageType : String
  piercing : Bool
  areaOfEffect : ℝ
  towerId : ℕ

/-- `Tower.createProjectileData()`. -/
def createProjectileData (t : Tower) (rand : ℝ) : Option ProjectileData :=
  match t.targetEnemy with
  | none => none
  | some te => some
    { type := t.config.projectileType
      startX := t.x
      startY := t.y
      targetX := te.x
      targetY := te.y
      targetEnemy := some te
      damage := calculateDamage t rand
      damageType := t.config.damageType
      piercing := t.config.piercing
      areaOfEffect := t.config.areaOfEffect
      towerId := t.id }

/-- The JS truthiness test `!this.targetEnemy || this.targetEnemy.isDead`. -/
def targetInvalid (t : Tower) : Bool :=
  match t.targetEnemy with
  | none => true
  | some te => te.isDead

/-- `Tower.update(deltaTime, enemies)`: cooldown countdown, target
(re)acquisition when the target is null or dead, rotation towards the target,
and cooldown-gated firing.  Returns the updated tower and the projectile
spawn data (`null` → `none`).  `rand` is the `Math.random()` value consumed
by `calculateDamage` when the tower fires. -/
def Tower.update (t : Tower) (deltaTime : ℝ) (enemies : List Enemy) (rand : ℝ) :
    Tower × Option ProjectileData :=
  if t.isDead ∨ t.isActive = false then (t, none)
  else
    -- update cooldown
    let t1 := if 0 < t.shotCooldown then {t with shotCooldown := t.shotCooldown - deltaTime} else t
    -- find target if none exists (or the current one is dead)
    let t2 :=
      if targetInvalid t1 then
        {t1 with targetEnemy := Tower.findTarget t1 enemies, hasShot := false}
      else t1
    match t2.targetEnemy with
    | some te =>
      if te.isDead = false then
        let t3 := {t2 with rotation := atan2 (te.y - t2.y) (te.x - t2.x)}
        if t3.shotCooldown ≤ 0 then
          ({t3 with hasShot := true, shotCooldown := t3.config.fireRate, lastShotTime := 0},
            createProjectileData t3 rand)
        else (t3, none)
      else ({t2 with hasShot := false}, none)
    | none => ({t2 with hasShot := false}, none)

/-- A sequence of `Tower.update` calls against a fixed enemy list; each input
is a (deltaTime, Math.random) pair and each output records whether the tower
fired on that tick. -/
def runTower (t : Tower) (enemies : List Enemy) : List (ℝ × ℝ) → List Bool
  | [] => []
  | (dt, r) :: rest =>
    let step := Tower.update t dt enemies r
    step.2.isSome :: runTower step.1 enemies rest

/-! ## The classic tower revision (src/classes/tower/Tower.js)

Frame-based: `fireRate` is a frame count, `update(enemies)` decrements the
cooldown by one per call.  `getTileSize()` reads the canvas, so the tile size
is passed as a parameter. -/

/-- The enemy shape this revision targets (src/classes/Enemy.js interface
used by the tower: pixel position, tile progress and current health). -/
structure CEnemy where
  pixelX : ℝ
  pixelY : ℝ
  currentTile : ℝ
  progress : ℝ
  currentHealth : ℝ

structure ClassicTower where
  x : ℝ
  y : ℝ
  range : ℝ
  fireRate : ℝ
  cooldown : ℝ
  damage : ℝ
  currentTarget : Option CEnemy

/-- `Tower.getPixelPosition()`. -/
def getPixelPosition (tileSize : ℝ) (t : ClassicTower) : ℝ × ℝ :=
  (t.x * tileSize + tileSize / 2, t.y * tileSize + tileSize / 2)

/-- `Tower.isInRange(enemy)`. -/
def isInRange (tileSize : ℝ) (t : ClassicTower) (e : CEnemy) : Bool :=
  let p := getPixelPosition tileSize t
  let deltaX := e.pixelX - p.1
  let deltaY := e.pixelY - p.2
  let distance := Real.sqrt (deltaX * deltaX + deltaY * deltaY)
  let rangeInPixels := t.range * tileSize
  decide (distance ≤ rangeInPixels)

/-- The `for (const enemy of enemies)` loop of `Tower.findTarget`, carrying
the best target and the best total progress found so far. -/
def findTargetGo (tileSize : ℝ) (t : ClassicTower) :
    List CEnemy → Option CEnemy → ℝ → Option CEnemy
  | [], bestTarget, _ => bestTarget
  | enemy :: rest, bestTarget, furtherestDistance =>
    if isInRange tileSize t enemy then
      let totalProgress := enemy.currentTile + enemy.progress
      if furtherestDistance < totalProgress then
        findTargetGo tileSize t rest (some enemy) totalProgress
      else findTargetGo tileSize t rest bestTarget furtherestDistance
    else findTargetGo tileSize t rest bestTarget furtherestDistance

/-- `Tower.findTarget(enemies)`: in-range enemy furthest along the path
(`furtherestDistance` starts at -1, first strictly-better candidate wins). -/
def ClassicTower.findTarget (tileSize : ℝ) (t : ClassicTower) (enemies : List CEnemy) :
    Option CEnemy :=
  findTargetGo tileSize t enemies none (-1)

/-- The object returned by `Tower.update`; `{shoot: false}` is modelled with
`target := none` and zeroed coordinates. -/
structure ShootResult where
  shoot : Bool
  target : Option CEnemy
  startX : ℝ
  startY : ℝ
  damage : ℝ

/-- `Tower.update(enemies)` of the classic revision: cooldown decrement,
target invalidation (dead *or out of range*), re-acquisition, firing. -/
def ClassicTower.update (tileSize : ℝ) (t : ClassicTower) (enemies : List CEnemy) :
    ClassicTower × ShootResult :=
  let t1 := if 0 < t.cooldown then {t with cooldown := t.cooldown - 1} else t
  let t2 :=
    match t1.currentTarget with
    | some tgt =>
      if tgt.currentHealth ≤ 0 ∨ isInRange tileSize t1 tgt = false then
        {t1 with currentTarget := none}
      else t1
    | none => t1
  let t3 :=
    match t2.currentTarget with
    | none => {t2 with currentTarget := ClassicTower.findTarget tileSize t2 enemies}
    | some _ => t2
  match t3.currentTarget with
  | some tgt =>
    if t3.cooldown ≤ 0 then
      let p := getPixelPosition tileSize t3
      ({t3 with cooldown := t3.fireRate},
        {shoot := true, target := some tgt, startX := p.1, startY := p.2, damage := t3.damage})
    else (t3, {shoot := false, target := none, startX := 0, startY := 0, damage := 0})
  | none => (t3, {shoot := false, target := none, startX := 0, startY := 0, damage := 0})

/-! ## Projectile hit flags and orchestrator collision resolution
(the `Projectile.hit()` method and the GameEngine's
`checkProjectileEnemyCollisions` / `checkCollision` AABB test) -/

/-- The projectile state read by the collision-resolution step (movement,
lifetime and trail bookkeeping are not consulted there and are omitted). -/
structure Projectile where
  id : String
  type : String
  x : ℝ
  y : ℝ
  width : ℝ
  height : ℝ
  speed : ℝ
  damage : ℝ
  damageType : String
  piercing : Bool
  hasHit : Bool
  isDead : Bool

/-- `Projectile.hit()`: mark as hit; a non-piercing projectile dies at once. -/
def Projectile.hit (p : Projectile) : Projectile :=
  let p1 := {p with hasHit := true}
  if p1.piercing = false then {p1 with isDead := true} else p1

/-- `GameEngine.checkCollision(obj1, obj2)`: AABB overlap. -/
def checkCollision (p : Projectile) (e : Enemy) : Bool :=
  decide (p.x < e.x + e.width ∧ p.x + p.width > e.x ∧
    p.y < e.y + e.height ∧ p.y + p.height > e.y)

/-- The inner `for (const enemy of enemies)` loop of
`checkProjectileEnemyCollisions` for one projectile: skip dead enemies,
damage the first colliding enemy, mark the projectile hit, and break. -/
def collideOne (p : Projectile) : List Enemy → Projectile × List Enemy
  | [] => (p, [])
  | enemy :: rest =>
    if enemy.isDead then
      let r := collideOne p rest
      (r.1, enemy :: r.2)
    else if checkCollision p enemy then
      let damageType := if p.damageType = "" then "normal" else p.damageType
      let enemy' := (takeDamage enemy p.damage damageType).1
      (p.hit, enemy' :: rest)
    else
      let r := collideOne p rest
      (r.1, enemy :: r.2)

/-- `GameEngine.checkProjectileEnemyCollisions()`: every projectile that has
not already hit is tested against the live enemies, in order. -/
def checkProjectileEnemyCollisions :
    List Projectile → List Enemy → List Projectile × List Enemy
  | [], enemies => ([], enemies)
  | p :: ps, enemies =>
    if p.hasHit then
      -- already hit
      let r := checkProjectileEnemyCollisions ps enemies
      (p :: r.1, r.2)
    else
      let r1 := collideOne p enemies
      let r2 := checkProjectileEnemyCollisions ps r1.2
      (r1.1 :: r2.1, r2.2)

end

/-! ## WaveManager (src/classes/gameManagers/WaveManager.js)

All arithmetic here is rational, so the embedding is over ℚ.  The two
`Math.random()` calls of a spawn step are passed in as the parameters
`r1` (elf-probability roll) and `r2` (index roll), both drawn from [0, 1). -/

/-- An entry of `this.enemyTypes` (name, config numbers and the derived
`xpCost = speed * baseHealth`); the constructor-function field `class` is
not data and is omitted. -/
structure EnemyType where
  name : String
  xpCost : ℚ
  baseHealth : ℚ
  speed : ℚ
deriving DecidableEq

/-- The WaveManager state (message/statistics fields that no modelled method
reads are kept out; `spawnedEnemyTypes` is the Set, `firstSpawnWave` the
Map). -/
structure WaveState where
  currentWave : ℕ
  baseXP : ℚ
  currentWaveXP : ℚ
  spentXP : ℚ
  allEnemiesSpawned : Bool
  spawnedEnemyTypes : List String
  firstSpawnWave : List (String × ℕ)
  enemyTypes : List EnemyType

/-- `WaveManager.getWavesSinceFirstSpawn(enemyTypeName)`. -/
def getWavesSinceFirstSpawn (w : WaveState) (enemyTypeName : String) : ℤ :=
  match w.firstSpawnWave.lookup enemyTypeName with
  | none => 0
  | some firstWave => (w.currentWave : ℤ) - firstWave

/-- `WaveManager.getScaledHealth(enemyType)`: +5 HP per wave since the type
first spawned. -/
def getScaledHealth (w : WaveState) (enemyType : EnemyType) : ℚ :=
  if enemyType.name ∈ w.spawnedEnemyTypes then
    enemyType.baseHealth + 5 * (getWavesSinceFirstSpawn w enemyType.name : ℚ)
  else enemyType.baseHealth

/-- `WaveManager.getAvailableEnemyTypes()`: no elves before wave 4, a
probability gate on waves 4–10, everything afterwards. -/
def getAvailableEnemyTypes (w : WaveState) (r1 : ℚ) : List EnemyType :=
  if w.currentWave ≤ 3 then w.enemyTypes.filter (fun t => t.name ≠ "Elve")
  else if w.currentWave ≤ 10 then
    let elfProbability := ((w.currentWave : ℚ) - 3) / 8
    if r1 < elfProbability then w.enemyTypes
    else w.enemyTypes.filter (fun t => t.name ≠ "Elve")
  else w.enemyTypes

/-- The `affordableEnemies` list of `getRandomAffordableEnemy`. -/
def affordableEnemies (w : WaveState) (r1 : ℚ) : List EnemyType :=
  let remainingXP := w.currentWaveXP - w.spentXP
  (getAvailableEnemyTypes w r1).filter (fun enemy => enemy.xpCost ≤ remainingXP)

/-- `WaveManager.getRandomAffordableEnemy()`: uniform random pick among the
affordable available types (`Math.floor(r2 * length)`). -/
def getRandomAffordableEnemy (w : WaveState) (r1 r2 : ℚ) : Option EnemyType :=
  let affordable := affordableEnemies w r1
  if affordable.isEmpty then none
  else
    let randomIndex := (⌊r2 * (affordable.length : ℚ)⌋).toNat
    affordable[randomIndex]?

/-- `WaveManager.handleSpawning()`: spend the type's cost, record the type as
spawned and its first-spawn wave, and emit the type together with its scaled
health (the source passes that health to `new enemyType.class(...)`); when
nothing is affordable, set `allEnemiesSpawned`. -/
def handleSpawning (w : WaveState) (r1 r2 : ℚ) : WaveState × Option (EnemyType × ℚ) :=
  if w.allEnemiesSpawned then (w, none)
  else
    match getRandomAffordableEnemy w r1 r2 with
    | some enemyType =>
      let w1 := {w with spentXP := w.spentXP + enemyType.xpCost}
      let w2 :=
        {w1 with spawnedEnemyTypes :=
          if enemyType.name ∈ w1.spawnedEnemyTypes then w1.spawnedEnemyTypes
          else enemyType.name :: w1.spawnedEnemyTypes}
      let w3 :=
        {w2 with firstSpawnWave :=
          if (w2.firstSpawnWave.lookup enemyType.name).isSome then w2.firstSpawnWave
          else (enemyType.name, w2.currentWave) :: w2.firstSpawnWave}
      let scaledHealth := getScaledHealth w3 enemyType
      (w3, some (enemyType, scaledHealth))
    | none => ({w with allEnemiesSpawned := true}, none)

/-- `WaveManager.startNextWave()`: advance the wave and double the budget. -/
def startNextWave (w : WaveState) : WaveState :=
  let w1 := {w with currentWave := w.currentWave + 1}
  {w1 with
    currentWaveXP := w1.baseXP * (2 : ℚ) ^ (w1.currentWave - 1)
    spentXP := 0
    allEnemiesSpawned := false}

/-- The state right after the `WaveManager` constructor runs (wave 1, budget
`baseXP = 10`, nothing spawned), with a given enemy-type roster. -/
def initialWaveState (types : List EnemyType) : WaveState :=
  { currentWave := 1
    baseXP := 10
    currentWaveXP := 10
    spentXP := 0
    allEnemiesSpawned := false
    spawnedEnemyTypes := []
    firstSpawnWave := []
    enemyTypes := types }

/-- Iterated spawn steps: fold `handleSpawning` over a list of random-roll
pairs, keeping only the state. -/
def spawnRun (w : WaveState) : List (ℚ × ℚ) → WaveState
  | [] => w
  | (r1, r2) :: rest => spawnRun (handleSpawning w r1 r2).1 rest

/-! ## Concrete instances used by the scenario claims and witnesses -/

noncomputable section

/-- All status effects inactive (the constructor's initial object). -/
def noStatus : StatusEffects :=
  { slow := {active := false, duration := 0, slowFactor := 1}
    stun := {active := false, duration := 0}
    burn := {active := false, duration := 0, damagePerSecond := 0}
    freeze := {active := false, duration := 0} }

/-- Scenario A enemy: health 30, armor 0, no resistances. -/
def scenarioA : Enemy :=
  { id := "a", type := "Goblin", path := [(0, 0), (10, 0)], pathIndex := 0
    distanceAlongSegment := 0, x := 0, y := 0, width := 20, height := 20
    speed := 50, direction := (1, 0), rotation := 0, health := 30, maxHealth := 30
    isDead := false, bounty := 10, armor := 0, resistances := []
    statusEffects := noStatus, opacity := 1 }

/-- The enemy after one, two and three hits of Scenario A. -/
def scenarioA1 : Enemy := (takeDamage scenarioA 10 "normal").1

def scenarioA2 : Enemy := (takeDamage scenarioA1 10 "normal").1

def scenarioA3 : Enemy := (takeDamage scenarioA2 10 "normal").1

/-- A dead enemy (for the dead-enemy takeDamage claim). -/
def deadEnemy : Enemy :=
  {scenarioA with id := "dead", health := 0, isDead := true}

/-- An armored enemy with a 50% fire resistance. -/
def resistEnemy : Enemy :=
  {scenarioA with
    id := "res"
    health := 10
    maxHealth := 10
    armor := 5
    resistances := [("fire", 1/2)]}

/-- Scenario C enemy: 3-waypoint path [(0,0),(10,0),(10,10)], speed 5. -/
def moveEnemy : Enemy :=
  {scenarioA with id := "move", path := [(0, 0), (10, 0), (10, 10)], speed := 5}

/-- The Scenario C enemy after crossing the first waypoint (the state the
movement loop recurses on). -/
def moveEnemyStep : Enemy :=
  updateDirection {moveEnemy with pathIndex := 1, distanceAlongSegment := 0}

/-- Scenario B tower config: fireRate 1.0 s. -/
def scenarioConfig : TowerConfig :=
  { width := 20, height := 20, range := 100, fireRate := 1, damage := 10
    damageType := "normal", projectileType := "arrow", piercing := false
    areaOfEffect := 0, health := 100, maxLevel := 3, targetingStrategy := "closest" }

/-- Scenario B tower: cooldown starts at 0, no target yet. -/
def scenarioTower : Tower :=
  { id := 1, type := "archer", x := 0, y := 0, gridX := 0, gridY := 0
    config := scenarioConfig, width := 20, height := 20, range := 100
    targetEnemy := none, targetingStrategy := "closest", rotation := 0
    shotCooldown := 0, lastShotTime := 0, shotsToFire := 0, level := 1
    experiencePoints := 0, experienceToNextLevel := 100, health := 100
    maxHealth := 100, isSelected := false, isDead := false, totalDamageDealt := 0
    enemiesKilled := 0, totalMoneyGenerated := 0, hasShot := false, isActive := true }

/-- The constant in-range target of Scenario B (at the tower's position). -/
def scenarioEnemy : Enemy :=
  {scenarioA with id := "target", health := 1000, maxHealth := 1000}

/-- The four 0.4-second ticks of Scenario B (`Math.random()` value 0). -/
def scenarioTicks : List (ℝ × ℝ) := [(0.4, 0), (0.4, 0), (0.4, 0), (0.4, 0)]

/-- The Scenario B run configuration: a live, in-range, never-dying constant
target for an active tower with a positive fire rate — the tower state class
preserved by every `Tower.update` tick against that single enemy. -/
def steadyTarget (t : Tower) (e : Enemy) : Prop :=
  t.isDead = false ∧ t.isActive = true ∧ e.isDead = false ∧
    getDistanceToEnemy t e ≤ t.range ∧ 0 < t.config.fireRate ∧
    (t.targetEnemy = none ∨ t.targetEnemy = some e)

/-- An enemy 100 pixels away from the origin, alive. -/
def farEnemy : Enemy :=
  {scenarioA with id := "far", x := 100, y := 0, health := 1000, maxHealth := 1000}

/-- A tower with range 50 currently holding `farEnemy` (distance 100) as its
target. -/
def holdingTower : Tower :=
  {scenarioTower with
    range := 50
    config := {scenarioConfig with range := 50}
    targetEnemy := some farEnemy
    shotCooldown := 5}

/-- Classic-revision tower at grid (0,0) with range 2 tiles. -/
def classicTower : ClassicTower :=
  { x := 0, y := 0, range := 2, fireRate := 60, cooldown := 0, damage := 10
    currentTarget := none }

/-- A live classic-revision enemy sitting on the tower's pixel position. -/
def classicEnemy : CEnemy :=
  { pixelX := 16, pixelY := 16, currentTile := 0, progress := 0, currentHealth := 5 }

/-- A piercing projectile that has already hit once (hasHit, not dead). -/
def piercedProjectile : Projectile :=
  { id := "p1", type := "arrow", x := 0, y := 0, width := 4, height := 4
    speed := 100, damage := 10, damageType := "normal", piercing := true
    hasHit := true, isDead := false }

/-- A live enemy overlapping `piercedProjectile`. -/
def overlapEnemy : Enemy :=
  {scenarioA with id := "overlap", health := 50, maxHealth := 50}

end

/-- Scenario D enemy type costing 4 XP. -/
def typeA : EnemyType := { name := "TypeA", xpCost := 4, baseHealth := 4, speed := 1 }

/-- Scenario D enemy type costing 3 XP. -/
def typeB : EnemyType := { name := "TypeB", xpCost := 3, baseHealth := 3, speed := 1 }

/-- Scenario D initial state: wave-1 budget 10, exactly the two types. -/
def waveScenario : WaveState := initialWaveState [typeA, typeB]

/-- Invariant of the Scenario D run: wave 1, budget 10, roster {4, 3}; the
spent budget stays in the set of sums of 4s and 3s not exceeding 10, and once
spawning has halted it lies in {8, 9, 10}. -/
def scenarioInv (w : WaveState) : Prop :=
  w.currentWave = 1 ∧ w.currentWaveXP = 10 ∧ w.enemyTypes = [typeA, typeB] ∧
    (w.spentXP = 0 ∨ w.spentXP = 3 ∨ w.spentXP = 4 ∨ w.spentXP = 6 ∨ w.spentXP = 7 ∨
      w.spentXP = 8 ∨ w.spentXP = 9 ∨ w.spentXP = 10) ∧
    (w.allEnemiesSpawned = true →
      (w.spentXP = 8 ∨ w.spentXP = 9 ∨ w.spentXP = 10))

/-- Scenario D state after spawning the cost-4 type once. -/
def waveD1 : WaveState :=
  {waveScenario with
    spentXP := 4
    spawnedEnemyTypes := ["TypeA"]
    firstSpawnWave := [("TypeA", 1)]}

/-- Scenario D state after spawning the cost-4 type twice. -/
def waveD2 : WaveState := {waveD1 with spentXP := 8}

/-- Scenario D state after the spawn attempt that finds nothing affordable. -/
def waveD3 : WaveState := {waveD2 with allEnemiesSpawned := true}




/-! # Theorems -/

/-- On a live enemy, `takeDamage` computes `max(1, amount - armor)` scaled by
`(1 - resistance)` (with resistance 0 when the type has no entry), subtracts
it from health, and clamps at 0 setting `isDead`. -/
theorem takeDamage_eq (e : Enemy) (amount : ℝ) (damageType : String)
    (h : e.isDead = false) :
    takeDamage e amount damageType =
      (if e.health - max 1 (amount - e.armor) * (1 - resistanceOf e damageType) ≤ 0 then
        ({e with health := 0, isDead := true},
          max 1 (amount - e.armor) * (1 - resistanceOf e damageType))
      else
        ({e with health :=
            e.health - max 1 (amount - e.armor) * (1 - resistanceOf e damageType)},
          max 1 (amount - e.armor) * (1 - resistanceOf e damageType))) := by
  unfold takeDamage
  rcases eq_or_ne (resistanceOf e damageType) 0 with h0 | h0
  · simp [h, h0]
  · simp [h, h0]

theorem scenarioA1_eq : scenarioA1 = {scenarioA with health := 20} := by
  unfold scenarioA1
  rw [takeDamage_eq _ _ _ rfl]
  norm_num [scenarioA, resistanceOf, max_def]

theorem scenarioA2_eq : scenarioA2 = {scenarioA with health := 10} := by
  unfold scenarioA2
  rw [scenarioA1_eq, takeDamage_eq _ _ _ rfl]
  norm_num [scenarioA, resistanceOf, max_def]

theorem scenarioA3_eq : scenarioA3 = {scenarioA with health := 0, isDead := true} := by
  unfold scenarioA3
  rw [scenarioA2_eq, takeDamage_eq _ _ _ rfl]
  norm_num [scenarioA, resistanceOf, max_def]

/-- Claim C1: on every live enemy, `takeDamage(amount, damageType)` applies
exactly `max(1, amount - armor) * (1 - resistance[damageType] or 0)` damage,
health decreases by that value clamped at 0, `isDead` becomes true exactly
when health reaches 0, and the call returns the damage applied; and the
Scenario A enemy (health 30, armor 0, no resistances) reaches health 0 and
`isDead = true` exactly on the third `takeDamage(10, "normal")` call. -/
theorem takeDamage_mitigation_correct (e : Enemy) (amount : ℝ) (damageType : String)
    (h : e.isDead = false) :
    ((takeDamage e amount damageType).2 =
        max 1 (amount - e.armor) * (1 - resistanceOf e damageType) ∧
      (takeDamage e amount damageType).1.health =
        max 0 (e.health - (takeDamage e amount damageType).2) ∧
      ((takeDamage e amount damageType).1.isDead = true ↔
        e.health - (takeDamage e amount damageType).2 ≤ 0)) ∧
    (scenarioA1.health = 20 ∧ scenarioA1.isDead = false ∧
      scenarioA2.health = 10 ∧ scenarioA2.isDead = false ∧
      scenarioA3.health = 0 ∧ scenarioA3.isDead = true) := by
  constructor
  · rw [takeDamage_eq e amount damageType h]
    split_ifs with hle
    · refine ⟨rfl, ?_, ?_⟩
      · simpa using (max_eq_left hle).symm
      · simpa using hle
    · have hpos : 0 ≤ e.health - max 1 (amount - e.armor) * (1 - resistanceOf e damageType) := by
        push_neg at hle
        linarith
      refine ⟨rfl, ?_, ?_⟩
      · simpa using (max_eq_right hpos).symm
      · simpa [h] using hle
  · rw [scenarioA1_eq, scenarioA2_eq, scenarioA3_eq]
    norm_num [scenarioA]

/-- Witness for C1: the mitigation formula evaluated on the Scenario A enemy
at damage 10. -/
theorem takeDamage_mitigation_correct_witness :
    scenarioA.isDead = false ∧
      (takeDamage scenarioA 10 "normal").2 =
        max 1 (10 - scenarioA.armor) * (1 - resistanceOf scenarioA "normal") :=
  ⟨rfl, (takeDamage_mitigation_correct scenarioA 10 "normal" rfl).1.1⟩

/-- Claim C10: `takeDamage` on an already-dead enemy returns 0 and leaves the
whole enemy state unchanged. -/
theorem takeDamage_dead_enemy_noop (e : Enemy) (amount : ℝ) (damageType : String)
    (h : e.isDead = true) : takeDamage e amount damageType = (e, 0) := by
  unfold takeDamage
  simp [h]

/-- Witness for C10: a concrete dead enemy is untouched by `takeDamage`. -/
theorem takeDamage_dead_enemy_noop_witness :
    deadEnemy.isDead = true ∧ takeDamage deadEnemy 7 "fire" = (deadEnemy, 0) :=
  ⟨rfl, takeDamage_dead_enemy_noop deadEnemy 7 "fire" rfl⟩

/-- Counterexample to C8 as stated: a live enemy with health 10, armor 5 and
fire resistance 1/2 hit by `takeDamage(3, "fire")` (damage ≤ armor) loses
only 1/2 health, less than 1. -/
theorem armor_floor_counterexample :
    resistEnemy.isDead = false ∧ (3 : ℝ) ≤ resistEnemy.armor ∧
      resistEnemy.health - (takeDamage resistEnemy 3 "fire").1.health < 1 := by
  refine ⟨rfl, by norm_num [resistEnemy, scenarioA], ?_⟩
  rw [takeDamage_eq _ _ _ rfl]
  norm_num [resistEnemy, scenarioA, resistanceOf, max_def]

/-- Claim C8 amended: with damage ≤ armor and no (or zero) resistance for the
damage type, `takeDamage` still applies at least 1 damage, and the health
decrease is at least 1 whenever the enemy had at least 1 health.  (With a
nonzero resistance `r` the applied damage is scaled by `1 - r` and can fall
below 1, as the counterexample shows.) -/
theorem armor_floor_without_resistance (e : Enemy) (amount : ℝ) (damageType : String)
    (h : e.isDead = false) (harm : amount ≤ e.armor)
    (hres : resistanceOf e damageType = 0) (hh : 1 ≤ e.health) :
    1 ≤ (takeDamage e amount damageType).2 ∧
      1 ≤ e.health - (takeDamage e amount damageType).1.health := by
  have hD : max 1 (amount - e.armor) * (1 - resistanceOf e damageType) = 1 := by
    rw [hres, max_eq_left (by linarith)]
    ring
  rw [takeDamage_eq e amount damageType h]
  split_ifs with hle
  · rw [hD] at hle ⊢
    exact ⟨le_refl 1, by simpa using hh⟩
  · rw [hD] at hle ⊢
    exact ⟨le_refl 1, by simp⟩

/-- Witness for amended C8: the armored enemy hit with an unresisted type
("ice" has no resistance entry) still loses a full point of health. -/
theorem armor_floor_without_resistance_witness :
    resistEnemy.isDead = false ∧ (3 : ℝ) ≤ resistEnemy.armor ∧
      resistanceOf resistEnemy "ice" = 0 ∧ (1 : ℝ) ≤ resistEnemy.health ∧
      (1 ≤ (takeDamage resistEnemy 3 "ice").2 ∧
        1 ≤ resistEnemy.health - (takeDamage resistEnemy 3 "ice").1.health) :=
  ⟨rfl, by norm_num [resistEnemy, scenarioA], rfl,
    by norm_num [resistEnemy, scenarioA],
    armor_floor_without_resistance resistEnemy 3 "ice" rfl
      (by norm_num [resistEnemy, scenarioA]) rfl
      (by norm_num [resistEnemy, scenarioA])⟩

/-! ## Path movement lemmas -/

theorem updateDirection_pathIndex (e : Enemy) : (updateDirection e).pathIndex = e.pathIndex := rfl

theorem updateDirection_path (e : Enemy) : (updateDirection e).path = e.path := rfl

theorem moveLoop_path (e : Enemy) (r : ℝ) : (moveLoop e r).path = e.path := by
  induction e, r using moveLoop.induct with
  | case1 e r h sl dn hle ih =>
    rw [moveLoop, if_pos h]
    dsimp only
    split
    · rw [ih]
      rfl
    · next h' => exact absurd hle h'
  | case2 e r h sl dn hle =>
    rw [moveLoop, if_pos h]
    dsimp only
    split
    · next h' => exact absurd h' hle
    · rfl
  | case3 e r h =>
    rw [moveLoop, if_neg h]

theorem moveLoop_pathIndex_ge (e : Enemy) (r : ℝ) : e.pathIndex ≤ (moveLoop e r).pathIndex := by
  induction e, r using moveLoop.induct with
  | case1 e r h sl dn hle ih =>
    rw [moveLoop, if_pos h]
    dsimp only
    split
    · exact le_trans (Nat.le_succ _) ih
    · next h' => exact absurd hle h'
  | case2 e r h sl dn hle =>
    rw [moveLoop, if_pos h]
    dsimp only
    split
    · next h' => exact absurd h' hle
    · exact le_refl _
  | case3 e r h =>
    rw [moveLoop, if_neg h]

theorem moveLoop_pathIndex_le (e : Enemy) (r : ℝ) (hb : e.pathIndex ≤ e.path.length - 1) :
    (moveLoop e r).pathIndex ≤ e.path.length - 1 := by
  induction e, r using moveLoop.induct with
  | case1 e r h sl dn hle ih =>
    rw [moveLoop, if_pos h]
    dsimp only
    split
    · have hrec := ih (by simpa [updateDirection] using h.2)
      simpa [updateDirection] using hrec
    · next h' => exact absurd hle h'
  | case2 e r h sl dn hle =>
    rw [moveLoop, if_pos h]
    dsimp only
    split
    · next h' => exact absurd h' hle
    · exact hb
  | case3 e r h =>
    rw [moveLoop, if_neg h]
    exact hb

theorem moveLoop_traveled (e : Enemy) (r : ℝ) :
    0 ≤ r → (moveLoop e r).pathIndex < e.path.length - 1 →
    getDistanceTraveled (moveLoop e r) = getDistanceTraveled e + r := by
  induction e, r using moveLoop.induct with
  | case1 e r h sl dn hle ih =>
    intro h0 hend
    rw [moveLoop, if_pos h] at hend ⊢
    dsimp only at hend ⊢
    rw [if_pos hle] at hend ⊢
    have h0' : 0 ≤ r - (segmentLengthAt e.path e.pathIndex - e.distanceAlongSegment) := by
      have hdn : segmentLengthAt e.path e.pathIndex - e.distanceAlongSegment ≤ r := hle
      linarith
    have hend' :
        (moveLoop (updateDirection {e with pathIndex := e.pathIndex + 1, distanceAlongSegment := 0})
            (r - (segmentLengthAt e.path e.pathIndex - e.distanceAlongSegment))).pathIndex <
          (updateDirection
              {e with pathIndex := e.pathIndex + 1, distanceAlongSegment := 0}).path.length - 1 := by
      simpa [updateDirection] using hend
    rw [ih h0' hend']
    unfold getDistanceTraveled
    simp only [updateDirection, List.range_succ, List.map_append, List.sum_append,
      List.map_cons, List.map_nil, List.sum_cons, List.sum_nil]
    ring
  | case2 e r h sl dn hle =>
    intro h0 hend
    rw [moveLoop, if_pos h]
    dsimp only
    rw [if_neg hle]
    unfold getDistanceTraveled
    dsimp only
    ring
  | case3 e r h =>
    intro h0 hend
    rw [moveLoop, if_neg h] at hend ⊢
    have hr : ¬0 < r := by
      intro hr
      exact h ⟨hr, lt_of_le_of_lt (Nat.le_refl _) hend⟩
    have : r = 0 := le_antisymm (not_lt.mp hr) h0
    rw [this, add_zero]

theorem updatePosition_pathIndex (e : Enemy) : (updatePosition e).pathIndex = e.pathIndex := by
  unfold updatePosition
  split
  · rfl
  · dsimp only
    split <;> rfl

theorem updatePosition_path (e : Enemy) : (updatePosition e).path = e.path := by
  unfold updatePosition
  split
  · rfl
  · dsimp only
    split <;> rfl

theorem updatePosition_distanceAlongSegment (e : Enemy) :
    (updatePosition e).distanceAlongSegment = e.distanceAlongSegment := by
  unfold updatePosition
  split
  · rfl
  · dsimp only
    split <;> rfl

theorem updatePosition_traveled (e : Enemy) :
    getDistanceTraveled (updatePosition e) = getDistanceTraveled e := by
  unfold getDistanceTraveled
  rw [updatePosition_pathIndex, updatePosition_path, updatePosition_distanceAlongSegment]

theorem moveAlongPath_pathIndex_ge (e : Enemy) (speed deltaTime : ℝ) :
    e.pathIndex ≤ (moveAlongPath e speed deltaTime).pathIndex := by
  unfold moveAlongPath
  split
  · exact le_refl _
  · rw [updatePosition_pathIndex]
    exact moveLoop_pathIndex_ge e (speed * deltaTime)

theorem moveAlongPath_pathIndex_le (e : Enemy) (speed deltaTime : ℝ)
    (hb : e.pathIndex ≤ e.path.length - 1) :
    (moveAlongPath e speed deltaTime).pathIndex ≤ e.path.length - 1 := by
  unfold moveAlongPath
  split
  · exact hb
  · rw [updatePosition_pathIndex]
    exact moveLoop_pathIndex_le e (speed * deltaTime) hb

theorem moveAlongPath_path (e : Enemy) (speed deltaTime : ℝ) :
    (moveAlongPath e speed deltaTime).path = e.path := by
  unfold moveAlongPath
  split
  · rfl
  · rw [updatePosition_path, moveLoop_path]

theorem moveEnemy_seg0 : segmentLengthAt moveEnemy.path 0 = 10 := by
  show Real.sqrt (((10 : ℝ) - 0) * ((10 : ℝ) - 0) + ((0 : ℝ) - 0) * ((0 : ℝ) - 0)) = 10
  rw [show ((10 : ℝ) - 0) * ((10 : ℝ) - 0) + ((0 : ℝ) - 0) * ((0 : ℝ) - 0) = 10 ^ 2 by norm_num]
  exact Real.sqrt_sq (by norm_num)

theorem moveEnemy_seg1 : segmentLengthAt moveEnemy.path 1 = 10 := by
  show Real.sqrt (((10 : ℝ) - 10) * ((10 : ℝ) - 10) + ((10 : ℝ) - 0) * ((10 : ℝ) - 0)) = 10
  rw [show ((10 : ℝ) - 10) * ((10 : ℝ) - 10) + ((10 : ℝ) - 0) * ((10 : ℝ) - 0) = 10 ^ 2 by norm_num]
  exact Real.sqrt_sq (by norm_num)

theorem scenarioC_moveLoop :
    moveLoop moveEnemy 15 = {moveEnemyStep with distanceAlongSegment := 0 + 5} := by
  have hc1 : segmentLengthAt moveEnemy.path moveEnemy.pathIndex -
      moveEnemy.distanceAlongSegment ≤ (15 : ℝ) := by
    rw [show moveEnemy.pathIndex = 0 from rfl, moveEnemy_seg0,
      show moveEnemy.distanceAlongSegment = (0 : ℝ) from rfl]
    norm_num
  rw [moveLoop, if_pos ⟨by norm_num, show moveEnemy.pathIndex < moveEnemy.path.length - 1 from
    by rw [show moveEnemy.pathIndex = 0 from rfl, show moveEnemy.path.length = 3 from rfl]; norm_num⟩]
  dsimp only
  rw [if_pos hc1]
  rw [show moveEnemy.pathIndex = 0 from rfl, moveEnemy_seg0,
    show moveEnemy.distanceAlongSegment = (0 : ℝ) from rfl]
  rw [show (15 : ℝ) - (10 - 0) = 5 by norm_num]
  have hstep : (updateDirection {moveEnemy with pathIndex := 0 + 1, distanceAlongSegment := 0}) =
      moveEnemyStep := rfl
  rw [hstep]
  have hc2 : ¬(segmentLengthAt moveEnemyStep.path moveEnemyStep.pathIndex -
      moveEnemyStep.distanceAlongSegment ≤ (5 : ℝ)) := by
    rw [show moveEnemyStep.pathIndex = 1 from rfl,
      show moveEnemyStep.path = moveEnemy.path from rfl, moveEnemy_seg1,
      show moveEnemyStep.distanceAlongSegment = (0 : ℝ) from rfl]
    norm_num
  rw [moveLoop, if_pos ⟨by norm_num, show moveEnemyStep.pathIndex < moveEnemyStep.path.length - 1
    from by rw [show moveEnemyStep.pathIndex = 1 from rfl,
      show moveEnemyStep.path.length = 3 from rfl]; norm_num⟩]
  dsimp only
  rw [if_neg hc2]
  rfl

theorem scenarioC_props :
    (moveAlongPath moveEnemy 5 3).pathIndex = 1 ∧
      (moveAlongPath moveEnemy 5 3).distanceAlongSegment = 5 := by
  unfold moveAlongPath
  rw [if_neg (show ¬(moveEnemy.path.length - 1 ≤ moveEnemy.pathIndex) from by
    rw [show moveEnemy.pathIndex = 0 from rfl, show moveEnemy.path.length = 3 from rfl]; norm_num)]
  dsimp only
  rw [updatePosition_pathIndex, updatePosition_distanceAlongSegment,
    show (5 : ℝ) * 3 = 15 by norm_num, scenarioC_moveLoop]
  exact ⟨rfl, by norm_num⟩

/-- Claim C3: one `moveAlongPath(speed, deltaTime)` call advances the stored
(pathIndex, distanceAlongSegment) by exactly `speed * deltaTime` world units
along the polyline (measured by `getDistanceTraveled`), crossing zero or more
waypoints, whenever the enemy does not reach the last waypoint; and on the
3-waypoint path [(0,0),(10,0),(10,10)] with speed 5 and deltaTime 3 a single
update ends at pathIndex 1, five units into the 10-unit second segment. -/
theorem moveAlongPath_advances_exactly (e : Enemy) (speed deltaTime : ℝ)
    (h0 : 0 ≤ speed * deltaTime)
    (hend : (moveAlongPath e speed deltaTime).pathIndex < e.path.length - 1) :
    (getDistanceTraveled (moveAlongPath e speed deltaTime) =
        getDistanceTraveled e + speed * deltaTime) ∧
      (moveAlongPath moveEnemy 5 3).pathIndex = 1 ∧
      (moveAlongPath moveEnemy 5 3).distanceAlongSegment = 5 := by
  refine ⟨?_, scenarioC_props⟩
  unfold moveAlongPath at hend ⊢
  by_cases hpast : e.path.length - 1 ≤ e.pathIndex
  · rw [if_pos hpast] at hend
    omega
  · rw [if_neg hpast] at hend ⊢
    dsimp only at hend ⊢
    rw [updatePosition_pathIndex] at hend
    rw [updatePosition_traveled]
    exact moveLoop_traveled e (speed * deltaTime) h0 hend

/-- Witness for C3: the conservation equation instantiated on the Scenario C
enemy, whose single update consumes exactly 15 world units. -/
theorem moveAlongPath_advances_exactly_witness :
    (0 : ℝ) ≤ 5 * 3 ∧ (moveAlongPath moveEnemy 5 3).pathIndex < moveEnemy.path.length - 1 ∧
      getDistanceTraveled (moveAlongPath moveEnemy 5 3) = getDistanceTraveled moveEnemy + 5 * 3 :=
  ⟨by norm_num,
    by rw [scenarioC_props.1, show moveEnemy.path.length = 3 from rfl]; norm_num,
    (moveAlongPath_advances_exactly moveEnemy 5 3 (by norm_num)
      (by rw [scenarioC_props.1, show moveEnemy.path.length = 3 from rfl]; norm_num)).1⟩

theorem takeDamage_fst_pathIndex (e : Enemy) (d : ℝ) (ty : String) :
    (takeDamage e d ty).1.pathIndex = e.pathIndex := by
  unfold takeDamage
  dsimp only
  split_ifs <;> rfl

theorem takeDamage_fst_path (e : Enemy) (d : ℝ) (ty : String) :
    (takeDamage e d ty).1.path = e.path := by
  unfold takeDamage
  dsimp only
  split_ifs <;> rfl

theorem updateSlowEffect_pathIndex (e : Enemy) (dt : ℝ) :
    (updateSlowEffect e dt).pathIndex = e.pathIndex := by
  unfold updateSlowEffect
  dsimp only
  split_ifs <;> rfl

theorem updateSlowEffect_path (e : Enemy) (dt : ℝ) :
    (updateSlowEffect e dt).path = e.path := by
  unfold updateSlowEffect
  dsimp only
  split_ifs <;> rfl

theorem updateStunEffect_pathIndex (e : Enemy) (dt : ℝ) :
    (updateStunEffect e dt).pathIndex = e.pathIndex := by
  unfold updateStunEffect
  dsimp only
  split_ifs <;> rfl

theorem updateStunEffect_path (e : Enemy) (dt : ℝ) :
    (updateStunEffect e dt).path = e.path := by
  unfold updateStunEffect
  dsimp only
  split_ifs <;> rfl

theorem updateBurnEffect_pathIndex (e : Enemy) (dt : ℝ) :
    (updateBurnEffect e dt).pathIndex = e.pathIndex := by
  unfold updateBurnEffect
  dsimp only
  split_ifs <;> simp [takeDamage_fst_pathIndex]

theorem updateBurnEffect_path (e : Enemy) (dt : ℝ) :
    (updateBurnEffect e dt).path = e.path := by
  unfold updateBurnEffect
  dsimp only
  split_ifs <;> simp [takeDamage_fst_path]

theorem updateFreezeEffect_pathIndex (e : Enemy) (dt : ℝ) :
    (updateFreezeEffect e dt).pathIndex = e.pathIndex := by
  unfold updateFreezeEffect
  dsimp only
  split_ifs <;> rfl

theorem updateFreezeEffect_path (e : Enemy) (dt : ℝ) :
    (updateFreezeEffect e dt).path = e.path := by
  unfold updateFreezeEffect
  dsimp only
  split_ifs <;> rfl

theorem updateStatusEffects_pathIndex (e : Enemy) (dt : ℝ) :
    (updateStatusEffects e dt).pathIndex = e.pathIndex := by
  unfold updateStatusEffects
  rw [updateFreezeEffect_pathIndex, updateBurnEffect_pathIndex, updateStunEffect_pathIndex,
    updateSlowEffect_pathIndex]

theorem updateStatusEffects_path (e : Enemy) (dt : ℝ) :
    (updateStatusEffects e dt).path = e.path := by
  unfold updateStatusEffects
  rw [updateFreezeEffect_path, updateBurnEffect_path, updateStunEffect_path,
    updateSlowEffect_path]

/-- Claim C4: every `Enemy.update` call leaves `pathIndex` monotonically
non-decreasing, and `pathIndex` never exceeds `path.length - 1` (whenever it
already satisfied that bound). -/
theorem enemy_update_pathIndex_monotone (e : Enemy) (dt : ℝ) :
    e.pathIndex ≤ (Enemy.update e dt).pathIndex ∧
      (e.pathIndex ≤ e.path.length - 1 →
        (Enemy.update e dt).pathIndex ≤ e.path.length - 1) := by
  unfold Enemy.update
  split
  · exact ⟨le_refl _, fun h => h⟩
  · dsimp only
    split
    · rw [updateStatusEffects_pathIndex]
      exact ⟨le_refl _, fun h => h⟩
    · have hmono : e.pathIndex ≤
          (moveAlongPath (updateStatusEffects e dt)
            (e.speed * e.statusEffects.slow.slowFactor) dt).pathIndex := by
        rw [← updateStatusEffects_pathIndex e dt]
        exact moveAlongPath_pathIndex_ge _ _ _
      have hbound : e.pathIndex ≤ e.path.length - 1 →
          (moveAlongPath (updateStatusEffects e dt)
            (e.speed * e.statusEffects.slow.slowFactor) dt).pathIndex ≤ e.path.length - 1 := by
        intro h
        have := moveAlongPath_pathIndex_le (updateStatusEffects e dt)
          (e.speed * e.statusEffects.slow.slowFactor) dt
          (by rw [updateStatusEffects_pathIndex, updateStatusEffects_path]; exact h)
        rwa [updateStatusEffects_path] at this
      split
      · exact ⟨hmono, hbound⟩
      · exact ⟨hmono, hbound⟩

/-- Witness for C4: the bound discharged on the Scenario C enemy. -/
theorem enemy_update_pathIndex_monotone_witness :
    moveEnemy.pathIndex ≤ moveEnemy.path.length - 1 ∧
      moveEnemy.pathIndex ≤ (Enemy.update moveEnemy 1).pathIndex ∧
      (Enemy.update moveEnemy 1).pathIndex ≤ moveEnemy.path.length - 1 :=
  ⟨by rw [show moveEnemy.pathIndex = 0 from rfl]; omega,
    (enemy_update_pathIndex_monotone moveEnemy 1).1,
    (enemy_update_pathIndex_monotone moveEnemy 1).2
      (by rw [show moveEnemy.pathIndex = 0 from rfl]; omega)⟩

/-! ## Projectile collision-resolution theorems -/

/-- Counterexample to C5 as stated: a piercing projectile that has already
hit (hasHit = true, isDead = false) overlaps a live enemy, yet the
collision-resolution step skips it entirely (`if (projectile.hasHit)
continue`), so it cannot hit any additional enemy on a later tick: the
enemy list comes back unchanged. -/
theorem piercing_second_hit_counterexample :
    piercedProjectile.piercing = true ∧ piercedProjectile.hasHit = true ∧
      piercedProjectile.isDead = false ∧ overlapEnemy.isDead = false ∧
      checkCollision piercedProjectile overlapEnemy = true ∧
      checkProjectileEnemyCollisions [piercedProjectile] [overlapEnemy] =
        ([piercedProjectile], [overlapEnemy]) := by
  refine ⟨rfl, rfl, rfl, rfl, ?_, rfl⟩
  simp only [checkCollision, decide_eq_true_eq]
  refine ⟨?_, ?_, ?_, ?_⟩ <;>
    norm_num [piercedProjectile, overlapEnemy, scenarioA]

/-- Claim C5 amended: after its first hit a piercing projectile has
hasHit = true and isDead = false, but the collision-resolution step skips
every projectile whose hasHit flag is set, so it damages no further enemy at
all — in particular it never damages the same enemy id twice.  (There is no
hit-enemy-id tracking in the code; the "may hit additional enemies on
subsequent ticks" part of the claim does not hold.) -/
theorem piercing_hit_flags_then_skipped (p : Projectile) (es : List Enemy)
    (hp : p.piercing = true) (hd : p.isDead = false) :
    (Projectile.hit p).hasHit = true ∧ (Projectile.hit p).isDead = false ∧
      checkProjectileEnemyCollisions [Projectile.hit p] es = ([Projectile.hit p], es) := by
  have hh : (Projectile.hit p).hasHit = true := by
    unfold Projectile.hit
    dsimp only
    split_ifs <;> rfl
  refine ⟨hh, ?_, ?_⟩
  · unfold Projectile.hit
    dsimp only
    rw [if_neg (by simp [hp])]
    exact hd
  · rw [checkProjectileEnemyCollisions, if_pos hh, checkProjectileEnemyCollisions]

/-- Witness for amended C5: the flags and the skip evaluated on a concrete
piercing projectile and a concrete enemy list. -/
theorem piercing_hit_flags_then_skipped_witness :
    ({piercedProjectile with hasHit := false}.piercing = true ∧
        {piercedProjectile with hasHit := false}.isDead = false) ∧
      (Projectile.hit {piercedProjectile with hasHit := false}).hasHit = true ∧
      (Projectile.hit {piercedProjectile with hasHit := false}).isDead = false ∧
      checkProjectileEnemyCollisions [Projectile.hit {piercedProjectile with hasHit := false}]
          [overlapEnemy] =
        ([Projectile.hit {piercedProjectile with hasHit := false}], [overlapEnemy]) :=
  ⟨⟨rfl, rfl⟩,
    piercing_hit_flags_then_skipped {piercedProjectile with hasHit := false} [overlapEnemy]
      rfl rfl⟩

/-! ## Tower targeting theorems -/

/-- Counterexample to C7 as stated: in the `Tower.update(deltaTime, enemies)`
revision a target is re-acquired only when it is null or dead — there is no
range check — so a live target at distance 100 from a range-50 tower is
still the tower's target after the update. -/
theorem tower_keeps_out_of_range_target :
    farEnemy.isDead = false ∧
      holdingTower.range < getDistanceToEnemy holdingTower farEnemy ∧
      (Tower.update holdingTower 0.1 [farEnemy] 0).1.targetEnemy = some farEnemy := by
  refine ⟨rfl, ?_, ?_⟩
  · unfold getDistanceToEnemy
    rw [show farEnemy.x = (100 : ℝ) from rfl, show farEnemy.y = (0 : ℝ) from rfl,
      show holdingTower.x = (0 : ℝ) from rfl, show holdingTower.y = (0 : ℝ) from rfl,
      show holdingTower.range = (50 : ℝ) from rfl,
      show ((100 : ℝ) - 0) * ((100 : ℝ) - 0) + ((0 : ℝ) - 0) * ((0 : ℝ) - 0) = 100 ^ 2 by
        norm_num,
      Real.sqrt_sq (by norm_num : (0 : ℝ) ≤ 100)]
    norm_num
  · unfold Tower.update
    rw [if_neg (show ¬(holdingTower.isDead = true ∨ holdingTower.isActive = false) from by
      rintro (h | h) <;> exact absurd h (by decide))]
    dsimp only
    rw [if_pos (show (0 : ℝ) < holdingTower.shotCooldown from by
      rw [show holdingTower.shotCooldown = (5 : ℝ) from rfl]; norm_num)]
    rw [if_neg (show ¬(targetInvalid
        {holdingTower with shotCooldown := holdingTower.shotCooldown - 0.1} = true) from by
      exact Bool.false_ne_true)]
    rw [show holdingTower.targetEnemy = some farEnemy from rfl]
    dsimp only
    rw [if_pos (show farEnemy.isDead = false from rfl)]
    rw [if_neg (show ¬(holdingTower.shotCooldown - 0.1 ≤ 0) from by
      rw [show holdingTower.shotCooldown = (5 : ℝ) from rfl]; norm_num)]

theorem findTargetGo_sound (tileSize : ℝ) (t : ClassicTower) (P : CEnemy → Prop)
    (l : List CEnemy) :
    ∀ (best : Option CEnemy) (bp : ℝ),
      (∀ x ∈ l, isInRange tileSize t x = true → P x) →
      (∀ x, best = some x → P x) →
      ∀ x, findTargetGo tileSize t l best bp = some x → P x := by
  induction l with
  | nil =>
    intro best bp _ hbest x hx
    rw [findTargetGo] at hx
    exact hbest x hx
  | cons e rest ih =>
    intro best bp hl hbest x hx
    rw [findTargetGo] at hx
    by_cases hr : isInRange tileSize t e = true
    · rw [if_pos hr] at hx
      dsimp only at hx
      by_cases hp : bp < e.currentTile + e.progress
      · rw [if_pos hp] at hx
        refine ih (some e) (e.currentTile + e.progress)
          (fun y hy hr' => hl y (List.mem_cons_of_mem _ hy) hr') ?_ x hx
        intro y hy
        obtain rfl : e = y := by injection hy
        exact hl e (List.mem_cons_self _ _) hr
      · rw [if_neg hp] at hx
        exact ih best bp (fun y hy hr' => hl y (List.mem_cons_of_mem _ hy) hr') hbest x hx
    · rw [if_neg hr] at hx
      exact ih best bp (fun y hy hr' => hl y (List.mem_cons_of_mem _ hy) hr') hbest x hx

theorem classic_findTarget_sound (tileSize : ℝ) (t : ClassicTower) (enemies : List CEnemy)
    (hall : ∀ x ∈ enemies, 0 < x.currentHealth) :
    ∀ x, ClassicTower.findTarget tileSize t enemies = some x →
      isInRange tileSize t x = true ∧ 0 < x.currentHealth := by
  intro x hx
  refine findTargetGo_sound tileSize t
    (fun y => isInRange tileSize t y = true ∧ 0 < y.currentHealth) enemies none (-1)
    (fun y hy hr => ⟨hr, hall y hy⟩) (fun y hy => by cases hy) x hx

theorem isInRange_fields_eq (tileSize : ℝ) (t1 t2 : ClassicTower) (e : CEnemy)
    (hx : t1.x = t2.x) (hy : t1.y = t2.y) (hr : t1.range = t2.range) :
    isInRange tileSize t1 e = isInRange tileSize t2 e := by
  unfold isInRange getPixelPosition
  rw [hx, hy, hr]

/-- Claim C7 amended: in the classes/tower revision (`update(enemies)` with
the dead-or-out-of-range invalidation check), whenever every enemy in the
candidate list is alive, the post-update target is either null or a live
enemy within range.  (In the other tower revision only null/dead targets are
invalidated, so an alive out-of-range target survives the update — see the
counterexample.) -/
theorem classicTower_target_valid (tileSize : ℝ) (t : ClassicTower) (enemies : List CEnemy)
    (hall : ∀ x ∈ enemies, 0 < x.currentHealth) :
    ∀ tgt, (ClassicTower.update tileSize t enemies).1.currentTarget = some tgt →
      0 < tgt.currentHealth ∧ isInRange tileSize t tgt = true := by
  intro tgt htgt
  unfold ClassicTower.update at htgt
  dsimp only at htgt
  set T1 := if 0 < t.cooldown then {t with cooldown := t.cooldown - 1} else t with hT1
  have hx1 : T1.x = t.x := by rw [hT1]; split <;> rfl
  have hy1 : T1.y = t.y := by rw [hT1]; split <;> rfl
  have hr1 : T1.range = t.range := by rw [hT1]; split <;> rfl
  cases ht : T1.currentTarget with
  | none =>
    rw [ht] at htgt
    dsimp only at htgt
    rw [ht] at htgt
    dsimp only at htgt
    cases hf : ClassicTower.findTarget tileSize T1 enemies with
    | none =>
      rw [hf] at htgt
      dsimp only at htgt
      exact absurd htgt (by simp)
    | some f =>
      rw [hf] at htgt
      dsimp only at htgt
      have hp := classic_findTarget_sound tileSize T1 enemies hall f hf
      have hin : isInRange tileSize t f = true := by
        rw [← isInRange_fields_eq tileSize T1 t f hx1 hy1 hr1]
        exact hp.1
      split_ifs at htgt
      all_goals dsimp only at htgt
      all_goals cases htgt
      all_goals exact ⟨hp.2, hin⟩
  | some tgt0 =>
    rw [ht] at htgt
    dsimp only at htgt
    by_cases h3 : tgt0.currentHealth ≤ 0 ∨ isInRange tileSize T1 tgt0 = false
    · rw [if_pos h3] at htgt
      dsimp only at htgt
      cases hf : ClassicTower.findTarget tileSize {T1 with currentTarget := none} enemies with
      | none =>
        rw [hf] at htgt
        dsimp only at htgt
        exact absurd htgt (by simp)
      | some f =>
        rw [hf] at htgt
        dsimp only at htgt
        have hp := classic_findTarget_sound tileSize {T1 with currentTarget := none} enemies
          hall f hf
        have hin : isInRange tileSize t f = true := by
          rw [← isInRange_fields_eq tileSize {T1 with currentTarget := none} t f hx1 hy1 hr1]
          exact hp.1
        split_ifs at htgt
        all_goals dsimp only at htgt
        all_goals cases htgt
        all_goals exact ⟨hp.2, hin⟩
    · rw [if_neg h3] at htgt
      rw [ht] at htgt
      dsimp only at htgt
      rw [ht] at htgt
      dsimp only at htgt
      push_neg at h3
      have hin : isInRange tileSize t tgt0 = true := by
        rw [← isInRange_fields_eq tileSize T1 t tgt0 hx1 hy1 hr1]
        cases hR : isInRange tileSize T1 tgt0
        · exact absurd hR h3.2
        · rfl
      split_ifs at htgt
      all_goals dsimp only at htgt
      all_goals try rw [ht] at htgt
      all_goals cases htgt
      all_goals exact ⟨by linarith [h3.1], hin⟩

/-! ## WaveManager theorems -/

theorem getRandomAffordableEnemy_mem (w : WaveState) (r1 r2 : ℚ) (et : EnemyType)
    (h : getRandomAffordableEnemy w r1 r2 = some et) : et ∈ affordableEnemies w r1 := by
  unfold getRandomAffordableEnemy at h
  dsimp only at h
  split_ifs at h with hemp
  exact List.getElem?_mem h

theorem affordableEnemies_cost_le (w : WaveState) (r1 : ℚ) (et : EnemyType)
    (h : et ∈ affordableEnemies w r1) : et.xpCost ≤ w.currentWaveXP - w.spentXP := by
  unfold affordableEnemies at h
  dsimp only at h
  have := (List.mem_filter.mp h).2
  exact of_decide_eq_true this

theorem getRandomAffordableEnemy_isSome (w : WaveState) (r1 r2 : ℚ)
    (h0 : 0 ≤ r2) (h1 : r2 < 1) (hne : affordableEnemies w r1 ≠ []) :
    ∃ et, getRandomAffordableEnemy w r1 r2 = some et := by
  unfold getRandomAffordableEnemy
  dsimp only
  rw [if_neg (by simpa [List.isEmpty_iff] using hne)]
  have hlen : 0 < (affordableEnemies w r1).length := List.length_pos.mpr hne
  have hlenq : (0 : ℚ) < ((affordableEnemies w r1).length : ℚ) := by exact_mod_cast hlen
  have hup : ⌊r2 * ((affordableEnemies w r1).length : ℚ)⌋ <
      ((affordableEnemies w r1).length : ℤ) := by
    rw [Int.floor_lt]
    push_cast
    exact mul_lt_of_lt_one_left hlenq h1
  have hlo : 0 ≤ ⌊r2 * ((affordableEnemies w r1).length : ℚ)⌋ :=
    Int.floor_nonneg.mpr (mul_nonneg h0 (le_of_lt hlenq))
  have hidx : (⌊r2 * ((affordableEnemies w r1).length : ℚ)⌋).toNat <
      (affordableEnemies w r1).length := by omega
  exact ⟨_, List.getElem?_eq_getElem hidx⟩

/-- Claim C6: a `handleSpawning` step never pushes `spentXP` above the wave
budget (which it leaves unchanged), a spawn is honored only when the chosen
type's cost fits the remaining budget (and then exactly that cost is spent),
and — starting from a state that is still spawning — `allEnemiesSpawned`
becomes true exactly when no affordable eligible type remains. -/
theorem waveBudget_invariant (w : WaveState) (r1 r2 : ℚ)
    (hspent : w.spentXP ≤ w.currentWaveXP) (h0 : 0 ≤ r2) (h1 : r2 < 1) :
    ((handleSpawning w r1 r2).1.currentWaveXP = w.currentWaveXP ∧
      (handleSpawning w r1 r2).1.spentXP ≤ w.currentWaveXP) ∧
    (∀ et h, (handleSpawning w r1 r2).2 = some (et, h) →
      et.xpCost ≤ w.currentWaveXP - w.spentXP ∧
        (handleSpawning w r1 r2).1.spentXP = w.spentXP + et.xpCost) ∧
    (w.allEnemiesSpawned = false →
      ((handleSpawning w r1 r2).1.allEnemiesSpawned = true ↔
        affordableEnemies w r1 = [])) := by
  unfold handleSpawning
  cases hflag : w.allEnemiesSpawned with
  | true =>
    rw [if_pos rfl]
    refine ⟨⟨rfl, hspent⟩, ?_, ?_⟩
    · intro et h hsome
      cases hsome
    · intro habs
      cases habs
  | false =>
    rw [if_neg (by simp)]
    cases hga : getRandomAffordableEnemy w r1 r2 with
    | some et0 =>
      have hmem := getRandomAffordableEnemy_mem w r1 r2 et0 hga
      have hcost := affordableEnemies_cost_le w r1 et0 hmem
      refine ⟨⟨rfl, by dsimp only; linarith⟩, ?_, ?_⟩
      · intro et h hsome
        obtain ⟨rfl, rfl⟩ : et0 = et ∧ getScaledHealth _ et0 = h := by
          injection hsome with h'
          injection h' with ha hb
          exact ⟨ha, hb⟩
        exact ⟨hcost, rfl⟩
      · intro _
        constructor
        · intro habs
          cases habs
        · intro hemp
          rw [hemp] at hmem
          cases hmem
    | none =>
      refine ⟨⟨rfl, hspent⟩, ?_, ?_⟩
      · intro et h hsome
        cases hsome
      · intro _
        constructor
        · intro _
          by_contra hne
          obtain ⟨et, hsome⟩ := getRandomAffordableEnemy_isSome w r1 r2 h0 h1 hne
          rw [hga] at hsome
          cases hsome
        · intro _
          rfl

/-- Witness for C6: one spawn step from the Scenario D initial state. -/
theorem waveBudget_invariant_witness :
    waveScenario.spentXP ≤ waveScenario.currentWaveXP ∧ (0 : ℚ) ≤ 0 ∧ (0 : ℚ) < 1 ∧
      ((handleSpawning waveScenario 0 0).1.currentWaveXP = waveScenario.currentWaveXP ∧
        (handleSpawning waveScenario 0 0).1.spentXP ≤ waveScenario.currentWaveXP) :=
  ⟨by decide, by decide, by decide,
    (waveBudget_invariant waveScenario 0 0 (by decide) (by decide) (by decide)).1⟩

theorem waveScenario_affordable (w : WaveState) (r1 : ℚ) (h1 : w.currentWave = 1)
    (hT : w.enemyTypes = [typeA, typeB]) :
    affordableEnemies w r1 =
      [typeA, typeB].filter (fun enemy => enemy.xpCost ≤ w.currentWaveXP - w.spentXP) := by
  unfold affordableEnemies getAvailableEnemyTypes
  dsimp only
  rw [if_pos (by rw [h1]; norm_num), hT]
  rw [show ([typeA, typeB] : List EnemyType).filter (fun t => t.name ≠ "Elve") = [typeA, typeB]
    from by decide]

theorem waveScenario_ga1 : getRandomAffordableEnemy waveScenario 0 0 = some typeA := by
  unfold getRandomAffordableEnemy
  dsimp only
  rw [waveScenario_affordable waveScenario 0 rfl rfl]
  rw [show ([typeA, typeB].filter
      (fun enemy => enemy.xpCost ≤ waveScenario.currentWaveXP - waveScenario.spentXP)) =
      [typeA, typeB] from by
    rw [show waveScenario.currentWaveXP - waveScenario.spentXP = (10 : ℚ) from by norm_num
      [waveScenario, initialWaveState]]
    norm_num [List.filter, typeA, typeB]]
  norm_num

theorem waveScenario_s1 : handleSpawning waveScenario 0 0 = (waveD1, some (typeA, 4)) := by
  unfold handleSpawning
  rw [if_neg (show ¬(waveScenario.allEnemiesSpawned = true) from Bool.false_ne_true)]
  rw [waveScenario_ga1]
  dsimp only
  rw [if_neg (show ¬(typeA.name ∈ waveScenario.spawnedEnemyTypes) from by simp
    [waveScenario, initialWaveState])]
  rw [if_neg (show ¬((waveScenario.firstSpawnWave.lookup typeA.name).isSome = true) from by
    simp [waveScenario, initialWaveState])]
  refine Prod.ext ?_ ?_
  · show _ = waveD1
    norm_num [waveD1, waveScenario, initialWaveState, typeA, WaveState.mk.injEq]
  · show some (typeA, getScaledHealth _ typeA) = some (typeA, 4)
    norm_num [getScaledHealth, getWavesSinceFirstSpawn, typeA, waveScenario, initialWaveState,
      List.lookup]

theorem waveScenario_ga2 : getRandomAffordableEnemy waveD1 0 0 = some typeA := by
  unfold getRandomAffordableEnemy
  dsimp only
  rw [waveScenario_affordable waveD1 0 rfl rfl]
  rw [show ([typeA, typeB].filter
      (fun enemy => enemy.xpCost ≤ waveD1.currentWaveXP - waveD1.spentXP)) =
      [typeA, typeB] from by
    rw [show waveD1.currentWaveXP - waveD1.spentXP = (6 : ℚ) from by norm_num
      [waveD1, waveScenario, initialWaveState]]
    norm_num [List.filter, typeA, typeB]]
  norm_num

theorem waveScenario_s2 : handleSpawning waveD1 0 0 = (waveD2, some (typeA, 4)) := by
  unfold handleSpawning
  rw [if_neg (show ¬(waveD1.allEnemiesSpawned = true) from Bool.false_ne_true)]
  rw [waveScenario_ga2]
  dsimp only
  rw [if_pos (show typeA.name ∈ waveD1.spawnedEnemyTypes from by simp
    [waveD1, waveScenario, initialWaveState, typeA])]
  rw [if_pos (show (waveD1.firstSpawnWave.lookup typeA.name).isSome = true from by
    simp [waveD1, waveScenario, initialWaveState, typeA, List.lookup])]
  refine Prod.ext ?_ ?_
  · show _ = waveD2
    norm_num [waveD2, waveD1, waveScenario, initialWaveState, typeA, WaveState.mk.injEq]
  · show some (typeA, getScaledHealth _ typeA) = some (typeA, 4)
    norm_num [getScaledHealth, getWavesSinceFirstSpawn, typeA, waveD1, waveScenario,
      initialWaveState, List.lookup]

theorem waveScenario_ga3 : getRandomAffordableEnemy waveD2 0 0 = none := by
  unfold getRandomAffordableEnemy
  dsimp only
  rw [waveScenario_affordable waveD2 0 rfl rfl]
  rw [show ([typeA, typeB].filter
      (fun enemy => enemy.xpCost ≤ waveD2.currentWaveXP - waveD2.spentXP)) =
      ([] : List EnemyType) from by
    rw [show waveD2.currentWaveXP - waveD2.spentXP = (2 : ℚ) from by norm_num
      [waveD2, waveD1, waveScenario, initialWaveState]]
    norm_num [List.filter, typeA, typeB]]
  norm_num

theorem waveScenario_s3 : handleSpawning waveD2 0 0 = (waveD3, none) := by
  unfold handleSpawning
  rw [if_neg (show ¬(waveD2.allEnemiesSpawned = true) from Bool.false_ne_true)]
  rw [waveScenario_ga3]
  rfl

/-- Counterexample to C9 as stated: drawing the cost-4 type twice (random
index roll 0 both times) exhausts the wave at spentXP = 8, after which
nothing is affordable and allEnemiesSpawned is set — the terminal spend is
neither 9 nor 10. -/
theorem waveScenario_ends_at_eight :
    (spawnRun waveScenario [(0, 0), (0, 0), (0, 0)]).spentXP = 8 ∧
      (spawnRun waveScenario [(0, 0), (0, 0), (0, 0)]).allEnemiesSpawned = true ∧
      (spawnRun waveScenario [(0, 0), (0, 0), (0, 0)]).spentXP ≠ 9 ∧
      (spawnRun waveScenario [(0, 0), (0, 0), (0, 0)]).spentXP ≠ 10 := by
  have hrun : spawnRun waveScenario [(0, 0), (0, 0), (0, 0)] = waveD3 := by
    rw [spawnRun, waveScenario_s1]
    rw [show (waveD1, some (typeA, (4 : ℚ))).1 = waveD1 from rfl]
    rw [spawnRun, waveScenario_s2]
    rw [show (waveD2, some (typeA, (4 : ℚ))).1 = waveD2 from rfl]
    rw [spawnRun, waveScenario_s3]
    rfl
  rw [hrun]
  refine ⟨rfl, rfl, ?_, ?_⟩ <;>
    norm_num [waveD3, waveD2, waveD1, waveScenario, initialWaveState]

theorem waveScenario_inv_step (w : WaveState) (r1 r2 : ℚ) (h0 : 0 ≤ r2) (h1 : r2 < 1)
    (hw : scenarioInv w) : scenarioInv (handleSpawning w r1 r2).1 := by
  obtain ⟨hwave, hbudget, htypes, hS, hflagS⟩ := hw
  unfold handleSpawning
  cases hflag : w.allEnemiesSpawned with
  | true =>
    rw [if_pos rfl]
    exact ⟨hwave, hbudget, htypes, hS, fun _ => hflagS hflag⟩
  | false =>
    rw [if_neg (by simp)]
    cases hga : getRandomAffordableEnemy w r1 r2 with
    | some et0 =>
      have hmem := getRandomAffordableEnemy_mem w r1 r2 et0 hga
      have hcost := affordableEnemies_cost_le w r1 et0 hmem
      rw [waveScenario_affordable w r1 hwave htypes] at hmem
      have het : et0 = typeA ∨ et0 = typeB := by
        have := (List.mem_filter.mp hmem).1
        simpa using this
      rw [hbudget] at hcost
      refine ⟨hwave, hbudget, htypes, ?_, ?_⟩
      · dsimp only
        rcases het with rfl | rfl
        · rw [show typeA.xpCost = (4 : ℚ) from rfl] at hcost ⊢
          rcases hS with h | h | h | h | h | h | h | h <;> rw [h] at hcost ⊢ <;> norm_num <;>
            norm_num at hcost
        · rw [show typeB.xpCost = (3 : ℚ) from rfl] at hcost ⊢
          rcases hS with h | h | h | h | h | h | h | h <;> rw [h] at hcost ⊢ <;> norm_num <;>
            norm_num at hcost
      · intro habs
        dsimp only at habs
        cases habs
    | none =>
      dsimp only
      have hemp : affordableEnemies w r1 = [] := by
        by_contra hne
        obtain ⟨et, hsome⟩ := getRandomAffordableEnemy_isSome w r1 r2 h0 h1 hne
        rw [hga] at hsome
        cases hsome
      rw [waveScenario_affordable w r1 hwave htypes] at hemp
      have hA := List.filter_eq_nil_iff.mp hemp typeA (by norm_num)
      have hB := List.filter_eq_nil_iff.mp hemp typeB (by norm_num)
      rw [hbudget] at hA hB
      have hA' : ¬((4 : ℚ) ≤ 10 - w.spentXP) := by
        intro hle
        exact hA (by rw [show typeA.xpCost = (4 : ℚ) from rfl]; exact decide_eq_true hle)
      have hspent : w.spentXP = 8 ∨ w.spentXP = 9 ∨ w.spentXP = 10 := by
        have hB' : ¬((3 : ℚ) ≤ 10 - w.spentXP) := by
          intro hle
          exact hB (by rw [show typeB.xpCost = (3 : ℚ) from rfl]; exact decide_eq_true hle)
        rcases hS with h | h | h | h | h | h | h | h <;> rw [h] at hB' ⊢ <;> norm_num at hB' ⊢
      exact ⟨hwave, hbudget, htypes, by tauto, fun _ => hspent⟩

theorem waveScenario_inv_run (rs : List (ℚ × ℚ))
    (hrs : ∀ p ∈ rs, 0 ≤ p.2 ∧ p.2 < 1) :
    ∀ w, scenarioInv w → scenarioInv (spawnRun w rs) := by
  induction rs with
  | nil => intro w hw; exact hw
  | cons p rest ih =>
    intro w hw
    obtain ⟨hp0, hp1⟩ := hrs p (List.mem_cons_self _ _)
    rw [show spawnRun w (p :: rest) = spawnRun (handleSpawning w p.1 p.2).1 rest from rfl]
    exact ih (fun q hq => hrs q (List.mem_cons_of_mem _ hq)) _
      (waveScenario_inv_step w p.1 p.2 hp0 hp1 hw)

/-- Claim C9 amended: from the Scenario D state (budget 10, types costing 4
and 3), any run of spawn steps with in-range random rolls keeps spentXP ≤ 10,
and once allEnemiesSpawned is set the terminal spend lies in {8, 9, 10} —
8 is reachable (pick the cost-4 type twice; see the counterexample), so the
claimed set {9, 10} is too small, but the budget is never exceeded and
spawning halts exactly when nothing affordable remains. -/
theorem waveScenario_terminal_spend (rs : List (ℚ × ℚ))
    (hrs : ∀ p ∈ rs, 0 ≤ p.2 ∧ p.2 < 1) :
    (spawnRun waveScenario rs).spentXP ≤ 10 ∧
      ((spawnRun waveScenario rs).allEnemiesSpawned = true →
        ((spawnRun waveScenario rs).spentXP = 8 ∨ (spawnRun waveScenario rs).spentXP = 9 ∨
          (spawnRun waveScenario rs).spentXP = 10)) := by
  have hinv := waveScenario_inv_run rs hrs waveScenario (by
    refine ⟨rfl, rfl, rfl, Or.inl rfl, ?_⟩
    intro habs
    cases habs)
  obtain ⟨_, _, _, hS, hflagS⟩ := hinv
  constructor
  · rcases hS with h | h | h | h | h | h | h | h <;> rw [h] <;> norm_num
  · exact hflagS

/-- Witness for amended C9: the counterexample run itself satisfies the
amended bound, terminating at spentXP = 8. -/
theorem waveScenario_terminal_spend_witness :
    (∀ p ∈ [((0 : ℚ), (0 : ℚ)), (0, 0), (0, 0)], 0 ≤ p.2 ∧ p.2 < 1) ∧
      (spawnRun waveScenario [(0, 0), (0, 0), (0, 0)]).spentXP ≤ 10 :=
  ⟨by decide,
    (waveScenario_terminal_spend [(0, 0), (0, 0), (0, 0)] (by decide)).1⟩

/-- Witness for amended C7: the classic tower updated against one live
enemy. -/
theorem classicTower_target_valid_witness :
    (∀ x ∈ [classicEnemy], 0 < x.currentHealth) ∧
      (∀ tgt, (ClassicTower.update 16 classicTower [classicEnemy]).1.currentTarget = some tgt →
        0 < tgt.currentHealth ∧ isInRange 16 classicTower tgt = true) :=
  ⟨by
    intro x hx
    rw [List.mem_singleton] at hx
    subst hx
    norm_num [classicEnemy],
    classicTower_target_valid 16 classicTower [classicEnemy] (by
      intro x hx
      rw [List.mem_singleton] at hx
      subst hx
      norm_num [classicEnemy])⟩

/-! ## Tower cooldown-gating lemmas -/

theorem findTarget_singleton (t : Tower) (e : Enemy) (he : e.isDead = false)
    (hr : getDistanceToEnemy t e ≤ t.range) : Tower.findTarget t [e] = some e := by
  unfold Tower.findTarget
  rw [if_neg (by simp)]
  dsimp only
  rw [show ([e].filter (fun x => decide (x.isDead = false ∧ getDistanceToEnemy t x ≤ t.range)))
    = [e] from by simp [he, hr]]
  rw [if_neg (by simp)]
  split <;>
    simp [getClosestEnemy, getFurthestEnemy, getWeakestEnemy, getStrongestEnemy,
      getFurthestAlongPath]

theorem tower_update_step (t : Tower) (e : Enemy) (dt r : ℝ) (h : steadyTarget t e) :
    steadyTarget (Tower.update t dt [e] r).1 e ∧
      (Tower.update t dt [e] r).1.targetEnemy = some e ∧
      (Tower.update t dt [e] r).1.config = t.config ∧
      ((Tower.update t dt [e] r).2.isSome = true ↔
        (if 0 < t.shotCooldown then t.shotCooldown - dt else t.shotCooldown) ≤ 0) ∧
      (Tower.update t dt [e] r).1.shotCooldown =
        (if (if 0 < t.shotCooldown then t.shotCooldown - dt else t.shotCooldown) ≤ 0
          then t.config.fireRate
          else (if 0 < t.shotCooldown then t.shotCooldown - dt else t.shotCooldown)) := by
  obtain ⟨hd, ha, he, hr, hf, htgt⟩ := h
  set c' := if 0 < t.shotCooldown then t.shotCooldown - dt else t.shotCooldown with hc'
  unfold Tower.update
  rw [if_neg (by simp [hd, ha])]
  dsimp only
  rw [show (if 0 < t.shotCooldown then {t with shotCooldown := t.shotCooldown - dt} else t) =
      {t with shotCooldown := c'} from by rw [hc']; split_ifs <;> rfl]
  rcases htgt with htgt | htgt
  · rw [if_pos (show targetInvalid {t with shotCooldown := c'} = true from by
      unfold targetInvalid
      rw [show ({t with shotCooldown := c'} : Tower).targetEnemy = t.targetEnemy from rfl, htgt])]
    rw [show Tower.findTarget {t with shotCooldown := c'} [e] = some e from
      findTarget_singleton _ e he hr]
    dsimp only
    rw [if_pos he]
    by_cases hcc : c' ≤ 0
    · rw [if_pos (show ({t with shotCooldown := c'} : Tower).shotCooldown ≤ 0 from hcc)]
      refine ⟨⟨hd, ha, he, hr, hf, Or.inr rfl⟩, rfl, rfl, ?_, ?_⟩
      · exact ⟨fun _ => hcc, fun _ => rfl⟩
      · rw [if_pos hcc]
    · rw [if_neg (show ¬(({t with shotCooldown := c'} : Tower).shotCooldown ≤ 0) from hcc)]
      refine ⟨⟨hd, ha, he, hr, hf, Or.inr rfl⟩, rfl, rfl, ?_, ?_⟩
      · simp [hcc]
      · rw [if_neg hcc]
  · rw [if_neg (show ¬(targetInvalid {t with shotCooldown := c'} = true) from by
      unfold targetInvalid
      rw [show ({t with shotCooldown := c'} : Tower).targetEnemy = t.targetEnemy from rfl, htgt]
      simp [he])]
    rw [show ({t with shotCooldown := c'} : Tower).targetEnemy = t.targetEnemy from rfl, htgt]
    dsimp only
    rw [if_pos he]
    by_cases hcc : c' ≤ 0
    · rw [if_pos (show ({t with shotCooldown := c'} : Tower).shotCooldown ≤ 0 from hcc)]
      refine ⟨⟨hd, ha, he, hr, hf, Or.inr rfl⟩, rfl, rfl, ?_, ?_⟩
      · exact ⟨fun _ => hcc, fun _ => rfl⟩
      · rw [if_pos hcc]
    · rw [if_neg (show ¬(({t with shotCooldown := c'} : Tower).shotCooldown ≤ 0) from hcc)]
      refine ⟨⟨hd, ha, he, hr, hf, Or.inr rfl⟩, rfl, rfl, ?_, ?_⟩
      · simp [hcc]
      · rw [if_neg hcc]

theorem next_fire_sum (e : Enemy) (inputs : List (ℝ × ℝ)) :
    ∀ t : Tower, steadyTarget t e → t.targetEnemy = some e → 0 < t.shotCooldown →
      ∀ j, (runTower t [e] inputs).getD j false = true →
        (∀ k, k < j → (runTower t [e] inputs).getD k false = false) →
        t.shotCooldown ≤ ((inputs.take (j + 1)).map Prod.fst).sum := by
  induction inputs with
  | nil =>
    intro t _ _ _ j hj _
    simp [runTower] at hj
  | cons p rest ih =>
    obtain ⟨dt, r⟩ := p
    intro t hst _ hc j hj hbefore
    have hstep := tower_update_step t e dt r hst
    rw [if_pos hc] at hstep
    have hcons : runTower t [e] ((dt, r) :: rest) =
        (Tower.update t dt [e] r).2.isSome ::
          runTower (Tower.update t dt [e] r).1 [e] rest := rfl
    by_cases hcc : t.shotCooldown - dt ≤ 0
    · cases j with
      | zero =>
        rw [show ((((dt, r) :: rest).take 1).map Prod.fst).sum = dt from by simp]
        linarith
      | succ k =>
        exfalso
        have h0 := hbefore 0 (Nat.succ_pos k)
        rw [hcons, List.getD_cons_zero, hstep.2.2.2.1.mpr hcc] at h0
        cases h0
    · cases j with
      | zero =>
        rw [hcons, List.getD_cons_zero] at hj
        exact absurd (hstep.2.2.2.1.mp hj) hcc
      | succ k =>
        have hc1 : 0 < (Tower.update t dt [e] r).1.shotCooldown := by
          rw [hstep.2.2.2.2, if_neg hcc]
          linarith [not_le.mp hcc]
        have hrec := ih (Tower.update t dt [e] r).1 hstep.1 hstep.2.1 hc1 k
          (by rw [hcons, List.getD_cons_succ] at hj; exact hj)
          (fun k' hk' => by
            have := hbefore (k' + 1) (Nat.succ_lt_succ hk')
            rw [hcons, List.getD_cons_succ] at this
            exact this)
        rw [hstep.2.2.2.2, if_neg hcc] at hrec
        rw [show ((((dt, r) :: rest).take (k + 1 + 1)).map Prod.fst).sum =
          dt + ((rest.take (k + 1)).map Prod.fst).sum from by simp]
        linarith

theorem gating_interval (e : Enemy) (inputs : List (ℝ × ℝ)) :
    ∀ t : Tower, steadyTarget t e →
      ∀ i j, i < j → (runTower t [e] inputs).getD i false = true →
        (runTower t [e] inputs).getD j false = true →
        (∀ k, i < k → k < j → (runTower t [e] inputs).getD k false = false) →
        t.config.fireRate ≤ (((inputs.drop (i + 1)).take (j - i)).map Prod.fst).sum := by
  induction inputs with
  | nil =>
    intro t _ i j _ hi _ _
    simp [runTower] at hi
  | cons p rest ih =>
    obtain ⟨dt, r⟩ := p
    intro t hst i j hij hi hj hbet
    have hstep := tower_update_step t e dt r hst
    have hcons : runTower t [e] ((dt, r) :: rest) =
        (Tower.update t dt [e] r).2.isSome ::
          runTower (Tower.update t dt [e] r).1 [e] rest := rfl
    obtain ⟨jj, rfl⟩ : ∃ jj, j = jj + 1 := ⟨j - 1, by omega⟩
    cases i with
    | zero =>
      have hfired0 : (Tower.update t dt [e] r).2.isSome = true := by
        rw [hcons, List.getD_cons_zero] at hi
        exact hi
      have hcc := hstep.2.2.2.1.mp hfired0
      have hcool : (Tower.update t dt [e] r).1.shotCooldown = t.config.fireRate := by
        rw [hstep.2.2.2.2, if_pos hcc]
      have hf' : 0 < (Tower.update t dt [e] r).1.shotCooldown := by
        rw [hcool]
        exact hst.2.2.2.2.1
      have happ := next_fire_sum e rest (Tower.update t dt [e] r).1 hstep.1 hstep.2.1 hf' jj
        (by rw [hcons, List.getD_cons_succ] at hj; exact hj)
        (fun k hk => by
          have := hbet (k + 1) (Nat.succ_pos k) (Nat.succ_lt_succ hk)
          rw [hcons, List.getD_cons_succ] at this
          exact this)
      rw [hcool] at happ
      simpa using happ
    | succ ii =>
      have hrec := ih (Tower.update t dt [e] r).1 hstep.1 ii jj (by omega)
        (by rw [hcons, List.getD_cons_succ] at hi; exact hi)
        (by rw [hcons, List.getD_cons_succ] at hj; exact hj)
        (fun k hk1 hk2 => by
          have := hbet (k + 1) (by omega) (by omega)
          rw [hcons, List.getD_cons_succ] at this
          exact this)
      rw [show (Tower.update t dt [e] r).1.config = t.config from hstep.2.2.1] at hrec
      rw [show (((dt, r) :: rest).drop (ii + 1 + 1)).take (jj + 1 - (ii + 1)) =
        (rest.drop (ii + 1)).take (jj - ii) from by simp [Nat.succ_sub_succ]]
      exact hrec

theorem scenario_steady : steadyTarget scenarioTower scenarioEnemy := by
  refine ⟨rfl, rfl, rfl, ?_, ?_, Or.inl rfl⟩
  · unfold getDistanceToEnemy
    rw [show scenarioEnemy.x = (0 : ℝ) from rfl, show scenarioEnemy.y = (0 : ℝ) from rfl,
      show scenarioTower.x = (0 : ℝ) from rfl, show scenarioTower.y = (0 : ℝ) from rfl,
      show scenarioTower.range = (100 : ℝ) from rfl]
    norm_num
  · rw [show scenarioTower.config.fireRate = (1 : ℝ) from rfl]
    norm_num

theorem scenario_fires :
    runTower scenarioTower [scenarioEnemy] scenarioTicks = [true, false, false, true] := by
  have step0 := tower_update_step scenarioTower scenarioEnemy 0.4 0 scenario_steady
  rw [if_neg (show ¬(0 < scenarioTower.shotCooldown) from by
    rw [show scenarioTower.shotCooldown = (0 : ℝ) from rfl]; norm_num)] at step0
  have hb0 : (Tower.update scenarioTower 0.4 [scenarioEnemy] 0).2.isSome = true :=
    step0.2.2.2.1.mpr (le_of_eq (show scenarioTower.shotCooldown = (0 : ℝ) from rfl))
  have hcool1 : (Tower.update scenarioTower 0.4 [scenarioEnemy] 0).1.shotCooldown = (1 : ℝ) := by
    rw [step0.2.2.2.2,
      if_pos (show scenarioTower.shotCooldown ≤ 0 from
        le_of_eq (show scenarioTower.shotCooldown = (0 : ℝ) from rfl))]
    rfl
  set t1 := (Tower.update scenarioTower 0.4 [scenarioEnemy] 0).1 with ht1
  have step1 := tower_update_step t1 scenarioEnemy 0.4 0 step0.1
  rw [if_pos (show 0 < t1.shotCooldown from by rw [hcool1]; norm_num)] at step1
  have hne1 : ¬(t1.shotCooldown - 0.4 ≤ 0) := by rw [hcool1]; norm_num
  have hb1 : (Tower.update t1 0.4 [scenarioEnemy] 0).2.isSome = false := by
    cases h : (Tower.update t1 0.4 [scenarioEnemy] 0).2.isSome
    · rfl
    · exact absurd (step1.2.2.2.1.mp h) hne1
  have hcool2 : (Tower.update t1 0.4 [scenarioEnemy] 0).1.shotCooldown = (0.6 : ℝ) := by
    rw [step1.2.2.2.2, if_neg hne1, hcool1]
    norm_num
  set t2 := (Tower.update t1 0.4 [scenarioEnemy] 0).1 with ht2
  have step2 := tower_update_step t2 scenarioEnemy 0.4 0 step1.1
  rw [if_pos (show 0 < t2.shotCooldown from by rw [hcool2]; norm_num)] at step2
  have hne2 : ¬(t2.shotCooldown - 0.4 ≤ 0) := by rw [hcool2]; norm_num
  have hb2 : (Tower.update t2 0.4 [scenarioEnemy] 0).2.isSome = false := by
    cases h : (Tower.update t2 0.4 [scenarioEnemy] 0).2.isSome
    · rfl
    · exact absurd (step2.2.2.2.1.mp h) hne2
  have hcool3 : (Tower.update t2 0.4 [scenarioEnemy] 0).1.shotCooldown = (0.2 : ℝ) := by
    rw [step2.2.2.2.2, if_neg hne2, hcool2]
    norm_num
  set t3 := (Tower.update t2 0.4 [scenarioEnemy] 0).1 with ht3
  have step3 := tower_update_step t3 scenarioEnemy 0.4 0 step2.1
  rw [if_pos (show 0 < t3.shotCooldown from by rw [hcool3]; norm_num)] at step3
  have hb3 : (Tower.update t3 0.4 [scenarioEnemy] 0).2.isSome = true :=
    step3.2.2.2.1.mpr (by rw [hcool3]; norm_num)
  rw [show runTower scenarioTower [scenarioEnemy] scenarioTicks =
    (Tower.update scenarioTower 0.4 [scenarioEnemy] 0).2.isSome ::
      (Tower.update t1 0.4 [scenarioEnemy] 0).2.isSome ::
      (Tower.update t2 0.4 [scenarioEnemy] 0).2.isSome ::
      (Tower.update t3 0.4 [scenarioEnemy] 0).2.isSome :: [] from rfl]
  rw [hb0, hb1, hb2, hb3]

/-- Claim C2: against a constant live in-range target, a tower never fires
twice with less than `fireRate` seconds of summed deltaTime between the two
shots (the sum of the tick durations strictly after the first shot up to and
including the second is at least `fireRate`); and with fireRate 1.0,
cooldown 0 and 0.4-second ticks the tower fires on ticks 0 and 3 only —
at t = 0 and t = 1.2, not at t = 0.8. -/
theorem tower_cooldown_gating (t : Tower) (e : Enemy) (inputs : List (ℝ × ℝ))
    (hd : t.isDead = false) (ha : t.isActive = true) (he : e.isDead = false)
    (hr : getDistanceToEnemy t e ≤ t.range) (hf : 0 < t.config.fireRate)
    (ht : t.targetEnemy = none) (i j : ℕ) (hij : i < j)
    (hi : (runTower t [e] inputs).getD i false = true)
    (hj : (runTower t [e] inputs).getD j false = true)
    (hbet : ∀ k, i < k → k < j → (runTower t [e] inputs).getD k false = false) :
    t.config.fireRate ≤ (((inputs.drop (i + 1)).take (j - i)).map Prod.fst).sum ∧
      runTower scenarioTower [scenarioEnemy] scenarioTicks = [true, false, false, true] :=
  ⟨gating_interval e inputs t ⟨hd, ha, he, hr, hf, Or.inl ht⟩ i j hij hi hj hbet,
    scenario_fires⟩

/-- Witness for C2: the Scenario B run itself — fires at ticks 0 and 3, and
the deltaTime between the two shots sums to 1.2 ≥ fireRate = 1. -/
theorem tower_cooldown_gating_witness :
    scenarioTower.targetEnemy = none ∧
      (runTower scenarioTower [scenarioEnemy] scenarioTicks).getD 0 false = true ∧
      (runTower scenarioTower [scenarioEnemy] scenarioTicks).getD 3 false = true ∧
      scenarioTower.config.fireRate ≤
        (((scenarioTicks.drop 1).take 3).map Prod.fst).sum :=
  ⟨rfl, by rw [scenario_fires]; rfl, by rw [scenario_fires]; rfl,
    (tower_cooldown_gating scenarioTower scenarioEnemy scenarioTicks rfl rfl rfl
      (by
        unfold getDistanceToEnemy
        rw [show scenarioEnemy.x = (0 : ℝ) from rfl, show scenarioEnemy.y = (0 : ℝ) from rfl,
          show scenarioTower.x = (0 : ℝ) from rfl, show scenarioTower.y = (0 : ℝ) from rfl,
          show scenarioTower.range = (100 : ℝ) from rfl]
        norm_num)
      (by rw [show scenarioTower.config.fireRate = (1 : ℝ) from rfl]; norm_num)
      rfl 0 3 (by norm_num)
      (by rw [scenario_fires]; rfl)
      (by rw [scenario_fires]; rfl)
      (by
        intro k h1 h2
        rw [scenario_fires]
        interval_cases k <;> rfl)).1⟩
